import Mathlib

/-!
Shallow embedding of the match simulation engine of the pingpong repository
(the useGameEngine module).  Scalar quantities carried by the game state are
modelled as real numbers; the JavaScript `Math.random()` draws, the wall
clock `Date.now()`, the keyboard/mouse/touch input and the fuel for the AI
bounce-prediction loop are supplied through an explicit per-tick
environment.  Purely cosmetic state (particles, trails, screen shake, theme,
reduced-motion flag) and audio/React-UI emissions are out of the simulation
core per the specification and are omitted.
-/

noncomputable section

/-- Difficulty tier, as in the source type `Difficulty`. -/
inductive Difficulty
  | easy
  | medium
  | hard
  | impossible
deriving DecidableEq, Repr

/-- Game mode, as in the source type `GameMode`. -/
inductive GameMode
  | single
  | multi
deriving DecidableEq, Repr

/-- Match status, as in the source field `gameStatus`. -/
inductive Status
  | menu
  | playing
  | paused
  | gameOver
deriving DecidableEq, Repr

/-- Which paddle last hit the ball, as in the source field `lastHitBy`. -/
inductive Side
  | player
  | ai
deriving DecidableEq, Repr

/-- Power-up kind, as in the source type `PowerUpType`. -/
inductive PowerUpType
  | enlarge
  | shrink
  | slow
  | fast
deriving DecidableEq, Repr

/-- Power-up spawn rate setting, as in the source field `powerUpSpawnRate`. -/
inductive SpawnRate
  | low
  | normal
  | high
deriving DecidableEq, Repr

/-- Serve direction, the source type is the literal union `1 | -1`. -/
inductive ServeDir
  | pos
  | neg
deriving DecidableEq, Repr

/-- Numeric value of a serve direction (`1` or `-1` in the source). -/
def ServeDir.toReal : ServeDir → ℝ
  | .pos => 1
  | .neg => -1

/-- Ball record, as in the source interface `Ball`. -/
structure Ball where
  x : ℝ
  y : ℝ
  vx : ℝ
  vy : ℝ
  speed : ℝ
  radius : ℝ

/-- Paddle record, as in the source interface `Paddle`. -/
structure Paddle where
  x : ℝ
  y : ℝ
  width : ℝ
  height : ℝ
  speed : ℝ
  score : ℕ
  dy : ℝ

/-- Power-up record, as in the source interface `PowerUp`. -/
structure PowerUp where
  x : ℝ
  y : ℝ
  radius : ℝ
  type : PowerUpType
  ttl : ℝ
  maxTtl : ℝ

/-- Full simulation state, as in the source interface `GameState`.  The two
fields `prevPlayerY` and `prevAiY` model the hook refs `prevPlayerYRef` and
`prevAiYRef` that the update loop uses to derive true per-tick paddle
displacement.  Cosmetic-only fields (particles, trails, screenShake, theme,
reducedMotion) are omitted. -/
structure GameState where
  ball : Ball
  player : Paddle
  ai : Paddle
  gameStatus : Status
  winner : String
  rallyCount : ℕ
  maxRally : ℕ
  combo : ℕ
  lastHitTime : ℝ
  winScore : ℕ
  difficulty : Difficulty
  isPowerHit : Bool
  powerHitTimer : ℝ
  mode : GameMode
  powerUps : List PowerUp
  powerUpSpawnTimer : ℝ
  lastHitBy : Side
  playerPowerUpTimer : ℝ
  aiPowerUpTimer : ℝ
  ballSlowTimer : ℝ
  ballSlowFactor : ℝ
  ballFastTimer : ℝ
  ballFastFactor : ℝ
  playerShrinkTimer : ℝ
  aiShrinkTimer : ℝ
  serveCountdown : ℝ
  serveDirection : ServeDir
  serveCountdownLastInt : ℕ
  adaptiveAI : Bool
  powerUpsEnabled : Bool
  powerUpSpawnRate : SpawnRate
  matchStartMs : ℝ
  matchEndMs : ℝ
  powerUpsCollectedPlayer : ℕ
  powerUpsCollectedAi : ℕ
  prevPlayerY : ℝ
  prevAiY : ℝ

/-- Per-tick environment: host inputs and the values drawn from
`Math.random()` and `Date.now()` during the tick, plus the fuel bounding the
AI bounce-prediction while-loop (the loop terminates in the source for every
reachable input; Lean requires an explicit bound). -/
structure Env where
  wPressed : Bool
  sPressed : Bool
  upPressed : Bool
  downPressed : Bool
  touchActive : Bool
  useMouse : Bool
  mouseY : ℝ
  aiRand : ℝ
  reflectFuel : ℕ
  spawnTypeRand : ℝ
  spawnXRand : ℝ
  spawnYRand : ℝ
  spawnIntervalRand : ℝ
  serveVyRand : ℝ
  now : ℝ

/-- Source constant `CANVAS_WIDTH`. -/
def CANVAS_WIDTH : ℝ := 800

/-- Source constant `CANVAS_HEIGHT`. -/
def CANVAS_HEIGHT : ℝ := 500

/-- Source constant `PADDLE_WIDTH`. -/
def PADDLE_WIDTH : ℝ := 14

/-- Source constant `PADDLE_HEIGHT`. -/
def PADDLE_HEIGHT : ℝ := 90

/-- Source constant `BALL_RADIUS`. -/
def BALL_RADIUS : ℝ := 8

/-- Source constant `PADDLE_MARGIN`. -/
def PADDLE_MARGIN : ℝ := 30

/-- Source constant `BALL_INITIAL_SPEED`. -/
def BALL_INITIAL_SPEED : ℝ := 5

/-- One row of the source table `DIFFICULTY_SETTINGS`. -/
structure DifficultySetting where
  aiSpeed : ℝ
  aiReaction : ℝ
  aiError : ℝ
  ballSpeedMul : ℝ

/-- Source table `DIFFICULTY_SETTINGS`. -/
def DIFFICULTY_SETTINGS : Difficulty → DifficultySetting
  | .easy => { aiSpeed := 3, aiReaction := 0.03, aiError := 60, ballSpeedMul := 0.85 }
  | .medium => { aiSpeed := 4.5, aiReaction := 0.06, aiError := 30, ballSpeedMul := 1 }
  | .hard => { aiSpeed := 6, aiReaction := 0.1, aiError := 10, ballSpeedMul := 1.15 }
  | .impossible => { aiSpeed := 8, aiReaction := 0.18, aiError := 2, ballSpeedMul := 1.3 }

/-- Source function `resetBall` (lines 593-617): center the ball and launch
it at the difficulty base speed in the given direction, with a small random
vertical component; reset rally/combo and the power-hit flag.  Cosmetic
trail clearing is omitted. -/
def resetBall (env : Env) (direction : ℝ) (s : GameState) : GameState :=
  let speed := BALL_INITIAL_SPEED * (DIFFICULTY_SETTINGS s.difficulty).ballSpeedMul
  { s with
    ball := { x := CANVAS_WIDTH / 2, y := CANVAS_HEIGHT / 2,
              vx := speed * direction, vy := (env.serveVyRand - 0.5) * 3,
              speed := speed, radius := BALL_RADIUS }
    rallyCount := 0
    combo := 0
    isPowerHit := false
    powerHitTimer := 0 }

/-- Source function `prepareServe` (lines 624-668): clear per-point
temporary effects, reset rally counters, arm a 3 second serve countdown and
center the ball with zero velocity. -/
def prepareServe (direction : ServeDir) (s : GameState) : GameState :=
  let speed := BALL_INITIAL_SPEED * (DIFFICULTY_SETTINGS s.difficulty).ballSpeedMul
  { s with
    powerUps := []
    powerUpSpawnTimer := 4
    player := { s.player with height := PADDLE_HEIGHT }
    ai := { s.ai with height := PADDLE_HEIGHT }
    playerPowerUpTimer := 0
    aiPowerUpTimer := 0
    playerShrinkTimer := 0
    aiShrinkTimer := 0
    ballSlowTimer := 0
    ballSlowFactor := 1
    ballFastTimer := 0
    ballFastFactor := 1
    rallyCount := 0
    combo := 0
    serveDirection := direction
    serveCountdown := 3
    serveCountdownLastInt := 0
    ball := { x := CANVAS_WIDTH / 2, y := CANVAS_HEIGHT / 2,
              vx := 0, vy := 0, speed := speed, radius := BALL_RADIUS } }

/-- Source function `startGame` (lines 670-755): reset the whole match state
for the requested difficulty, win score and mode, then enter a serve
sequence.  The persisted option flags that `startGame` copies into the state
are passed as parameters; the serve direction draw `Math.random() > 0.5` and
`Date.now()` come from the environment. -/
def startGame (diff : Difficulty) (winAt : ℕ) (gameMode : GameMode)
    (adaptive powerUpsEn : Bool) (rate : SpawnRate) (env : Env) : GameState :=
  let settings := DIFFICULTY_SETTINGS diff
  let aiSpeed := if gameMode = GameMode.multi then 7 else settings.aiSpeed
  prepareServe (if env.serveVyRand > 0.5 then ServeDir.pos else ServeDir.neg)
    { ball := { x := CANVAS_WIDTH / 2, y := CANVAS_HEIGHT / 2,
                vx := BALL_INITIAL_SPEED, vy := 0,
                speed := BALL_INITIAL_SPEED, radius := BALL_RADIUS }
      player := { x := PADDLE_MARGIN, y := CANVAS_HEIGHT / 2 - PADDLE_HEIGHT / 2,
                  width := PADDLE_WIDTH, height := PADDLE_HEIGHT, speed := 7,
                  score := 0, dy := 0 }
      ai := { x := CANVAS_WIDTH - PADDLE_MARGIN - PADDLE_WIDTH,
              y := CANVAS_HEIGHT / 2 - PADDLE_HEIGHT / 2,
              width := PADDLE_WIDTH, height := PADDLE_HEIGHT, speed := aiSpeed,
              score := 0, dy := 0 }
      gameStatus := Status.playing
      winner := ""
      rallyCount := 0
      maxRally := 0
      combo := 0
      lastHitTime := 0
      winScore := winAt
      difficulty := diff
      isPowerHit := false
      powerHitTimer := 0
      mode := gameMode
      powerUps := []
      powerUpSpawnTimer := 5
      lastHitBy := Side.player
      playerPowerUpTimer := 0
      aiPowerUpTimer := 0
      ballSlowTimer := 0
      ballSlowFactor := 1
      ballFastTimer := 0
      ballFastFactor := 1
      playerShrinkTimer := 0
      aiShrinkTimer := 0
      serveCountdown := 0
      serveDirection := ServeDir.pos
      serveCountdownLastInt := 0
      adaptiveAI := adaptive
      powerUpsEnabled := powerUpsEn
      powerUpSpawnRate := rate
      matchStartMs := env.now
      matchEndMs := 0
      powerUpsCollectedPlayer := 0
      powerUpsCollectedAi := 0
      prevPlayerY := CANVAS_HEIGHT / 2 - PADDLE_HEIGHT / 2
      prevAiY := CANVAS_HEIGHT / 2 - PADDLE_HEIGHT / 2 }

/-- Source function `togglePause` (lines 757-766). -/
def togglePause (s : GameState) : GameState :=
  if s.gameStatus = Status.playing then { s with gameStatus := Status.paused }
  else if s.gameStatus = Status.paused then { s with gameStatus := Status.playing }
  else s

/-- Source function `returnToMenu` (lines 768-771). -/
def returnToMenu (s : GameState) : GameState :=
  { s with gameStatus := Status.menu }

/-- Adaptive AI speed block of `update` (lines 783-798): in single-player
mode, recompute the AI paddle speed from the live scores when adaptive AI is
on, otherwise pin it to the difficulty base speed. -/
def aiSpeedPhase (s : GameState) : GameState :=
  if s.mode = GameMode.single then
    let base := (DIFFICULTY_SETTINGS s.difficulty).aiSpeed
    if s.adaptiveAI then
      let diff := (s.player.score : ℝ) - (s.ai.score : ℝ)
      let target := base + diff * 0.45
      let lo := base * 0.6
      let hi := base * 2.0
      let target := if target < lo then lo else target
      let target := if target > hi then hi else target
      { s with ai := { s.ai with speed := target } }
    else
      { s with ai := { s.ai with speed := base } }
  else s

/-- Bounce-prediction while-loop of the AI controller (lines 867-870),
written with explicit fuel: while the predicted y is outside the court,
mirror it across the crossed boundary. -/
def reflectPredictedY : ℕ → ℝ → ℝ
  | 0, y => y
  | fuel + 1, y =>
    if y < 0 ∨ y > CANVAS_HEIGHT then
      let y1 := if y < 0 then -y else y
      let y2 := if y1 > CANVAS_HEIGHT then 2 * CANVAS_HEIGHT - y1 else y1
      reflectPredictedY fuel y2
    else y

/-- Clamp a paddle y coordinate to the court, the source expression
`Math.max(0, Math.min(CANVAS_HEIGHT - height, y))`. -/
def clampPaddleY (height y : ℝ) : ℝ :=
  max 0 (min (CANVAS_HEIGHT - height) y)

/-- Paddle movement block of `update` (lines 800-877): multiplayer touch or
keyboard control of both paddles, or single-player mouse/keyboard control of
the left paddle plus the predictive AI controller for the right paddle. -/
def movePhase (env : Env) (s : GameState) : GameState :=
  if s.mode = GameMode.multi then
    if env.touchActive then
      { s with
        player := { s.player with y := clampPaddleY s.player.height s.player.y }
        ai := { s.ai with y := clampPaddleY s.ai.height s.ai.y } }
    else
      let pdy := if env.wPressed then -s.player.speed else 0
      let pdy := if env.sPressed then s.player.speed else pdy
      let py := s.player.y + (if env.wPressed then -s.player.speed else 0)
        + (if env.sPressed then s.player.speed else 0)
      let ady := if env.upPressed then -s.ai.speed else 0
      let ady := if env.downPressed then s.ai.speed else ady
      let ay := s.ai.y + (if env.upPressed then -s.ai.speed else 0)
        + (if env.downPressed then s.ai.speed else 0)
      { s with
        player := { s.player with y := clampPaddleY s.player.height py, dy := pdy }
        ai := { s.ai with y := clampPaddleY s.ai.height ay, dy := ady } }
  else
    let settings := DIFFICULTY_SETTINGS s.difficulty
    let player1 :=
      if env.useMouse then
        let targetY := env.mouseY - s.player.height / 2
        let d := (targetY - s.player.y) * 0.15
        { s.player with dy := d, y := s.player.y + d }
      else
        let pdy := if env.upPressed || env.wPressed then -s.player.speed else 0
        let pdy := if env.downPressed || env.sPressed then s.player.speed else pdy
        let py := s.player.y + (if env.upPressed || env.wPressed then -s.player.speed else 0)
          + (if env.downPressed || env.sPressed then s.player.speed else 0)
        { s.player with dy := pdy, y := py }
    let player2 := { player1 with y := clampPaddleY player1.height player1.y }
    let aiCenter := s.ai.y + s.ai.height / 2
    let aiError := (env.aiRand - 0.5) * settings.aiError
    let targetY :=
      if s.ball.vx > 0 then
        let timeToReach := (s.ai.x - s.ball.x) / s.ball.vx
        let predictedY := reflectPredictedY env.reflectFuel (s.ball.y + s.ball.vy * timeToReach)
        predictedY + aiError
      else s.ball.y + aiError
    let aiDiff := targetY - aiCenter
    let ady := Real.sign aiDiff * min (|aiDiff| * settings.aiReaction + 0.5) s.ai.speed
    { s with
      player := player2
      ai := { s.ai with dy := ady, y := clampPaddleY s.ai.height (s.ai.y + ady) } }

/-- Displacement bookkeeping of `update` (lines 879-884): recompute both
paddle `dy` fields from the actual position delta against the previous tick
and refresh the previous-position refs. -/
def dyPhase (s : GameState) : GameState :=
  { s with
    player := { s.player with dy := s.player.y - s.prevPlayerY }
    ai := { s.ai with dy := s.ai.y - s.prevAiY }
    prevPlayerY := s.player.y
    prevAiY := s.ai.y }

/-- Power-hit timer decay of `update` (lines 887-893). -/
def powerHitPhase (s : GameState) : GameState :=
  if s.powerHitTimer > 0 then
    let t := s.powerHitTimer - 1 / 60
    if t ≤ 0 then { s with isPowerHit := false, powerHitTimer := 0 }
    else { s with powerHitTimer := t }
  else s

/-- Spawn interval draw, the source closure `nextSpawnInterval`
(lines 901-910). -/
def nextSpawnInterval (env : Env) (rate : SpawnRate) : ℝ :=
  match rate with
  | .low => 12 + env.spawnIntervalRand * 8
  | .high => 4 + env.spawnIntervalRand * 4
  | .normal => 8 + env.spawnIntervalRand * 6

/-- Power-up spawn scheduling block of `update` (lines 912-935): while
power-ups are enabled and no serve countdown is active, run down the spawn
timer; on expiry draw a weighted type and a position, evict the oldest
power-up beyond the cap of 3, push the new one with a 10 second TTL and
reseed the timer. -/
def spawnPhase (env : Env) (s : GameState) : GameState :=
  if s.powerUpsEnabled ∧ s.serveCountdown ≤ 0 then
    let t := s.powerUpSpawnTimer - 1 / 60
    if t ≤ 0 then
      let type : PowerUpType :=
        if env.spawnTypeRand < 0.3 then .enlarge
        else if env.spawnTypeRand < 0.55 then .slow
        else if env.spawnTypeRand < 0.8 then .fast
        else .shrink
      let px := 90 + env.spawnXRand * (CANVAS_WIDTH - 180)
      let py := 55 + env.spawnYRand * (CANVAS_HEIGHT - 110)
      let kept := if s.powerUps.length ≥ 3 then s.powerUps.tail else s.powerUps
      { s with
        powerUps := kept ++ [{ x := px, y := py, radius := 12, type := type,
                               ttl := 10, maxTtl := 10 }]
        powerUpSpawnTimer := nextSpawnInterval env s.powerUpSpawnRate }
    else { s with powerUpSpawnTimer := t }
  else s

/-- TTL decay block of `update` (lines 937-941): age all live power-ups and
drop the expired ones. -/
def ttlPhase (s : GameState) : GameState :=
  if s.powerUps.length > 0 then
    let aged := s.powerUps.map (fun pu => { pu with ttl := pu.ttl - 1 / 60 })
    { s with powerUps := aged.filter (fun pu => decide (pu.ttl > 0)) }
  else s

/-- Player enlarge timer decay of `update` (lines 944-950): run the timer
down and restore the neutral paddle height on expiry. -/
def playerEnlargeBlock (s : GameState) : GameState :=
  if s.playerPowerUpTimer > 0 then
    let t := s.playerPowerUpTimer - 1 / 60
    if t ≤ 0 then
      { s with player := { s.player with height := PADDLE_HEIGHT },
               playerPowerUpTimer := 0 }
    else { s with playerPowerUpTimer := t }
  else s

/-- AI enlarge timer decay of `update` (lines 951-957). -/
def aiEnlargeBlock (s : GameState) : GameState :=
  if s.aiPowerUpTimer > 0 then
    let t := s.aiPowerUpTimer - 1 / 60
    if t ≤ 0 then
      { s with ai := { s.ai with height := PADDLE_HEIGHT }, aiPowerUpTimer := 0 }
    else { s with aiPowerUpTimer := t }
  else s

/-- Player shrink timer decay of `update` (lines 960-966). -/
def playerShrinkBlock (s : GameState) : GameState :=
  if s.playerShrinkTimer > 0 then
    let t := s.playerShrinkTimer - 1 / 60
    if t ≤ 0 then
      { s with player := { s.player with height := PADDLE_HEIGHT },
               playerShrinkTimer := 0 }
    else { s with playerShrinkTimer := t }
  else s

/-- AI shrink timer decay of `update` (lines 967-973). -/
def aiShrinkBlock (s : GameState) : GameState :=
  if s.aiShrinkTimer > 0 then
    let t := s.aiShrinkTimer - 1 / 60
    if t ≤ 0 then
      { s with ai := { s.ai with height := PADDLE_HEIGHT }, aiShrinkTimer := 0 }
    else { s with aiShrinkTimer := t }
  else s

/-- Slow-effect timer block of `update` (lines 976-986): on expiry, divide
the recorded slow factor back out of the ball velocity and reset it to 1. -/
def slowTimerPhase (s : GameState) : GameState :=
  if s.ballSlowTimer > 0 then
    let t := s.ballSlowTimer - 1 / 60
    if t ≤ 0 then
      if s.ballSlowFactor ≠ 1 then
        { s with
          ball := { s.ball with vx := s.ball.vx / s.ballSlowFactor,
                                vy := s.ball.vy / s.ballSlowFactor }
          ballSlowFactor := 1
          ballSlowTimer := 0 }
      else { s with ballSlowTimer := 0 }
    else { s with ballSlowTimer := t }
  else s

/-- Fast-effect timer block of `update` (lines 988-999). -/
def fastTimerPhase (s : GameState) : GameState :=
  if s.ballFastTimer > 0 then
    let t := s.ballFastTimer - 1 / 60
    if t ≤ 0 then
      if s.ballFastFactor ≠ 1 then
        { s with
          ball := { s.ball with vx := s.ball.vx / s.ballFastFactor,
                                vy := s.ball.vy / s.ballFastFactor }
          ballFastFactor := 1
          ballFastTimer := 0 }
      else { s with ballFastTimer := 0 }
    else { s with ballFastTimer := t }
  else s

/-- Power-up subsystem block of `update` (lines 895-1000), in source order:
spawn scheduling, TTL decay, enlarge timers, shrink timers, slow timer, fast
timer. -/
def powerUpPhase (env : Env) (s : GameState) : GameState :=
  fastTimerPhase (slowTimerPhase (aiShrinkBlock (playerShrinkBlock
    (aiEnlargeBlock (playerEnlargeBlock (ttlPhase (spawnPhase env s)))))))

/-- Serve-countdown block of `update` (lines 1026-1062): run the countdown
down, track its last whole-second value, and on expiry launch the ball in
the stored direction.  The cosmetic particle/trail/shake decay that also
runs here is omitted. -/
def servePhase (env : Env) (s : GameState) : GameState :=
  let cd := s.serveCountdown - 1 / 60
  let secLeft := (Int.toNat ⌈cd⌉)
  let s1 :=
    if secLeft ≠ s.serveCountdownLastInt ∧ secLeft > 0 then
      { s with serveCountdown := cd, serveCountdownLastInt := secLeft }
    else { s with serveCountdown := cd }
  if cd ≤ 0 then
    resetBall env s1.serveDirection.toReal
      { s1 with serveCountdown := 0, serveCountdownLastInt := 0 }
  else s1

/-- Ball integration step of `update` (lines 1067-1069). -/
def ballMovePhase (s : GameState) : GameState :=
  { s with ball := { s.ball with x := s.ball.x + s.ball.vx,
                                 y := s.ball.y + s.ball.vy } }

/-- Top/bottom wall resolution of `update` (lines 1071-1085): clamp the ball
back to the crossed boundary and reflect the vertical velocity. -/
def wallPhase (s : GameState) : GameState :=
  let s1 :=
    if s.ball.y - s.ball.radius ≤ 0 then
      { s with ball := { s.ball with y := s.ball.radius, vy := |s.ball.vy| } }
    else s
  if s1.ball.y + s1.ball.radius ≥ CANVAS_HEIGHT then
    { s1 with ball := { s1.ball with y := CANVAS_HEIGHT - s1.ball.radius,
                                     vy := -|s1.ball.vy| } }
  else s1

/-- Rectangle/circle overlap test of `checkPaddleCollision`
(lines 1089-1094). -/
def ballHitsPaddle (b : Ball) (paddle : Paddle) : Prop :=
  b.x - b.radius < paddle.x + paddle.width ∧
  b.x + b.radius > paddle.x ∧
  b.y + b.radius > paddle.y ∧
  b.y - b.radius < paddle.y + paddle.height

instance (b : Ball) (p : Paddle) : Decidable (ballHitsPaddle b p) :=
  inferInstanceAs (Decidable (_ ∧ _ ∧ _ ∧ _))

/-- Source helper `checkPaddleCollision` (lines 1088-1158): on overlap,
compute the deflection angle from the normalized hit position, escalate the
logical ball speed (with an extra power-hit escalation when the per-tick
paddle displacement exceeds 4), assign the outgoing velocity from the speed
value captured after the first escalation scaled by the slow/fast factors,
push the ball outside the paddle, and update rally, combo, last-hit time and
last-hit side.  The wall-clock `Date.now()` is passed as `now`. -/
def checkPaddleCollision (now : ℝ) (s : GameState) (isPlayer : Bool) : GameState :=
  let paddle := if isPlayer then s.player else s.ai
  if ballHitsPaddle s.ball paddle then
    let settings := DIFFICULTY_SETTINGS s.difficulty
    let hitPos := (s.ball.y - (paddle.y + paddle.height / 2)) / (paddle.height / 2)
    let angle := hitPos * (Real.pi / 3)
    let speed1 := min (s.ball.speed * 1.05) (14 * settings.ballSpeedMul)
    let speed := speed1
    let paddleSpeed := |paddle.dy|
    let powerHit := paddleSpeed > 4
    let speed2 := if powerHit then min (speed1 * 1.2) (16 * settings.ballSpeedMul) else speed1
    let velMul := s.ballSlowFactor * s.ballFastFactor
    let vx := Real.cos angle * speed * (if isPlayer then 1 else -1) * velMul
    let vy := Real.sin angle * speed * velMul
    let x := if isPlayer then paddle.x + paddle.width + s.ball.radius
             else paddle.x - s.ball.radius
    let rally := s.rallyCount + 1
    { s with
      ball := { s.ball with speed := speed2, vx := vx, vy := vy, x := x }
      isPowerHit := if powerHit then true else s.isPowerHit
      powerHitTimer := if powerHit then 0.5 else s.powerHitTimer
      rallyCount := rally
      maxRally := if rally > s.maxRally then rally else s.maxRally
      combo :=
        if now - s.lastHitTime < 2000 ∧ isPlayer then s.combo + 1
        else if isPlayer then 1
        else s.combo
      lastHitTime := now
      lastHitBy := if isPlayer then Side.player else Side.ai }
  else s

/-- Collision dispatch of `update` (lines 1160-1165): test the left paddle
when the ball moves left, otherwise the right paddle. -/
def collisionDispatch (now : ℝ) (s : GameState) : GameState :=
  if s.ball.vx < 0 then checkPaddleCollision now s true
  else checkPaddleCollision now s false

/-- Left-edge scoring block of `update` (lines 1168-1188): a ball past the
left edge scores for the right side; reaching the win threshold ends the
match, otherwise a new serve sequence starts toward the left side. -/
def leftEdgeScore (env : Env) (s : GameState) : GameState :=
  if s.ball.x < -20 then
    let s' := { s with ai := { s.ai with score := s.ai.score + 1 } }
    if s'.ai.score ≥ s'.winScore then
      { s' with gameStatus := Status.gameOver,
                winner := if s'.mode = GameMode.multi then "P2" else "AI",
                matchEndMs := env.now }
    else prepareServe ServeDir.neg s'
  else s

/-- Right-edge scoring block of `update` (lines 1189-1209). -/
def rightEdgeScore (env : Env) (s : GameState) : GameState :=
  if s.ball.x > CANVAS_WIDTH + 20 then
    let s' := { s with player := { s.player with score := s.player.score + 1 } }
    if s'.player.score ≥ s'.winScore then
      { s' with gameStatus := Status.gameOver,
                winner := if s'.mode = GameMode.multi then "P1" else "Player",
                matchEndMs := env.now }
    else prepareServe ServeDir.pos s'
  else s

/-- Scoring block of `update` (lines 1167-1209): the left-edge check then
the right-edge check, in source order. -/
def scoringPhase (env : Env) (s : GameState) : GameState :=
  rightEdgeScore env (leftEdgeScore env s)

/-- Effect application on power-up pickup (lines 1230-1279): credit the side
that last hit the ball and apply the effect of the given type. -/
def applyPowerUp (s : GameState) (pu : PowerUp) : GameState :=
  let s0 :=
    if s.lastHitBy = Side.player then
      { s with powerUpsCollectedPlayer := s.powerUpsCollectedPlayer + 1 }
    else
      { s with powerUpsCollectedAi := s.powerUpsCollectedAi + 1 }
  match pu.type with
  | .enlarge =>
    if s0.lastHitBy = Side.player then
      { s0 with player := { s0.player with
                  height := min (PADDLE_HEIGHT * 1.6) (CANVAS_HEIGHT - 20) },
                playerPowerUpTimer := 6, playerShrinkTimer := 0 }
    else
      { s0 with ai := { s0.ai with
                  height := min (PADDLE_HEIGHT * 1.6) (CANVAS_HEIGHT - 20) },
                aiPowerUpTimer := 6, aiShrinkTimer := 0 }
  | .shrink =>
    if s0.lastHitBy = Side.player then
      { s0 with ai := { s0.ai with height := max (PADDLE_HEIGHT * 0.6) 22 },
                aiShrinkTimer := 6, aiPowerUpTimer := 0 }
    else
      { s0 with player := { s0.player with height := max (PADDLE_HEIGHT * 0.6) 22 },
                playerShrinkTimer := 6, playerPowerUpTimer := 0 }
  | .slow =>
    if s0.ballSlowFactor = (1 : ℝ) then
      { s0 with ball := { s0.ball with vx := s0.ball.vx * 0.6,
                                       vy := s0.ball.vy * 0.6 },
                ballSlowFactor := 0.6, ballSlowTimer := 6 }
    else { s0 with ballSlowTimer := 6 }
  | .fast =>
    if s0.ballFastFactor = (1 : ℝ) then
      { s0 with ball := { s0.ball with vx := s0.ball.vx * 1.6,
                                       vy := s0.ball.vy * 1.6 },
                ballFastFactor := 1.6, ballFastTimer := 6 }
    else { s0 with ballFastTimer := 6 }

/-- Overlap test of the pickup filter (lines 1213-1218). -/
def ballTouchesPowerUp (b : Ball) (pu : PowerUp) : Prop :=
  (b.x - pu.x) * (b.x - pu.x) + (b.y - pu.y) * (b.y - pu.y) ≤
    (b.radius + pu.radius) * (b.radius + pu.radius)

instance (b : Ball) (pu : PowerUp) : Decidable (ballTouchesPowerUp b pu) :=
  inferInstanceAs (Decidable (_ ≤ _))

/-- One step of the pickup filter callback: either collect the power-up
(applying its effect and dropping it) or keep it. -/
def pickupStep (acc : GameState × List PowerUp) (pu : PowerUp) : GameState × List PowerUp :=
  if ballTouchesPowerUp acc.1.ball pu then (applyPowerUp acc.1 pu, acc.2)
  else (acc.1, acc.2 ++ [pu])

/-- Power-up pickup block of `update` (lines 1211-1284): the source filters
the power-up array with a side-effecting callback; modelled as a left fold
threading the state and accumulating the kept power-ups. -/
def pickupPhase (s : GameState) : GameState :=
  let r := s.powerUps.foldl pickupStep (s, [])
  { r.1 with powerUps := r.2 }

/-- Phases of `update` that run before the serve-countdown gate
(lines 780-1023): adaptive AI speed, paddle movement, displacement
bookkeeping, power-hit timer, power-up subsystem. -/
def prePhases (env : Env) (s : GameState) : GameState :=
  powerUpPhase env (powerHitPhase (dyPhase (movePhase env (aiSpeedPhase s))))

/-- Source function `update` (lines 774-1308), the per-tick orchestrator:
no-op unless playing; otherwise run the pre-serve phases, then either the
serve countdown branch (which returns early) or ball integration, wall
resolution, paddle-collision dispatch, scoring and power-up pickup.  The
trailing cosmetic particle/trail/shake updates are omitted. -/
def update (env : Env) (s : GameState) : GameState :=
  if s.gameStatus ≠ Status.playing then s
  else
    let s5 := prePhases env s
    if s5.serveCountdown > 0 then servePhase env s5
    else
      pickupPhase (scoringPhase env (collisionDispatch env.now
        (wallPhase (ballMovePhase s5))))

/-- States reachable through the entry points the engine exposes: `startGame`
(also covering `rematch`), per-tick `update`, `togglePause` and
`returnToMenu`.  Power-up pickups happen inside `update`. -/
inductive Reachable : GameState → Prop
  | start (diff : Difficulty) (winAt : ℕ) (gameMode : GameMode)
      (adaptive powerUpsEn : Bool) (rate : SpawnRate) (env : Env) :
      Reachable (startGame diff winAt gameMode adaptive powerUpsEn rate env)
  | step (env : Env) {s : GameState} : Reachable s → Reachable (update env s)
  | pause {s : GameState} : Reachable s → Reachable (togglePause s)
  | menu {s : GameState} : Reachable s → Reachable (returnToMenu s)

/-- Engine invariant, established by `startGame` and preserved by every
entry point: the ball radius is the constant 8; the logical ball speed and
both velocity factors are positive; paddle heights never drop below the
shrunk height 54; either a serve countdown is pending or the ball has
nonzero horizontal velocity; the ball stays vertically inside the court;
and on each paddle the enlarge and shrink timers are never both active. -/
structure EngineInv (s : GameState) : Prop where
  radius : s.ball.radius = 8
  speed_pos : 0 < s.ball.speed
  slow_pos : 0 < s.ballSlowFactor
  fast_pos : 0 < s.ballFastFactor
  player_h : 54 ≤ s.player.height
  ai_h : 54 ≤ s.ai.height
  vx_or_serve : 0 < s.serveCountdown ∨ s.ball.vx ≠ 0
  y_lo : 8 ≤ s.ball.y
  y_hi : s.ball.y ≤ 492
  player_excl : s.playerPowerUpTimer = 0 ∨ s.playerShrinkTimer = 0
  ai_excl : s.aiPowerUpTimer = 0 ∨ s.aiShrinkTimer = 0

/-- Environment with all inputs at rest and all random draws at 0. -/
def env0 : Env :=
  { wPressed := false, sPressed := false, upPressed := false, downPressed := false,
    touchActive := false, useMouse := false, mouseY := 0, aiRand := 0,
    reflectFuel := 0, spawnTypeRand := 0, spawnXRand := 0, spawnYRand := 0,
    spawnIntervalRand := 0, serveVyRand := 0, now := 0 }

/-- Concrete mid-rally state used by the closed instances: two-player mode,
medium difficulty, ball at the court center moving right, no active
power-up effects, power-up spawning off. -/
def demoState : GameState :=
  { ball := { x := 400, y := 250, vx := 5, vy := 0, speed := 5, radius := 8 }
    player := { x := 30, y := 205, width := 14, height := 90, speed := 7,
                score := 0, dy := 0 }
    ai := { x := 756, y := 205, width := 14, height := 90, speed := 4.5,
            score := 0, dy := 0 }
    gameStatus := Status.playing
    winner := ""
    rallyCount := 0
    maxRally := 0
    combo := 0
    lastHitTime := 0
    winScore := 7
    difficulty := Difficulty.medium
    isPowerHit := false
    powerHitTimer := 0
    mode := GameMode.multi
    powerUps := []
    powerUpSpawnTimer := 5
    lastHitBy := Side.player
    playerPowerUpTimer := 0
    aiPowerUpTimer := 0
    ballSlowTimer := 0
    ballSlowFactor := 1
    ballFastTimer := 0
    ballFastFactor := 1
    playerShrinkTimer := 0
    aiShrinkTimer := 0
    serveCountdown := 0
    serveDirection := ServeDir.pos
    serveCountdownLastInt := 0
    adaptiveAI := false
    powerUpsEnabled := false
    powerUpSpawnRate := SpawnRate.normal
    matchStartMs := 0
    matchEndMs := 0
    powerUpsCollectedPlayer := 0
    powerUpsCollectedAi := 0
    prevPlayerY := 205
    prevAiY := 205 }

/-- Concrete state in the menu, for the no-op tick instance. -/
def menuState : GameState :=
  { demoState with gameStatus := Status.menu }

/-- Concrete playing state about to produce a normal (non-power) hit on the
left paddle while the ball speed already sits at the power-hit cap 16
(difficulty medium, ballSpeedMul 1). -/
def c1State : GameState :=
  { demoState with
      ball := { x := 50, y := 250, vx := -3, vy := 0, speed := 16, radius := 8 } }

/-- Concrete playing state about to produce a power hit on the left paddle
(per-tick paddle displacement 5 exceeds the threshold 4), difficulty medium,
no active slow/fast factors. -/
def c2State : GameState :=
  { demoState with
      ball := { x := 40, y := 250, vx := -3, vy := 0, speed := 5, radius := 8 }
      player := { demoState.player with dy := 5 } }

/-- Concrete playing state whose slow effect (factor 0.6) expires on the
next tick. -/
def c6State : GameState :=
  { demoState with
      ball := { x := 400, y := 250, vx := 3, vy := 0, speed := 5, radius := 8 }
      ballSlowTimer := 0.01
      ballSlowFactor := 0.6 }

/-- Concrete playing state whose fast effect (factor 1.6) expires on the
next tick. -/
def c6fState : GameState :=
  { demoState with
      ball := { x := 400, y := 250, vx := 8, vy := 0, speed := 5, radius := 8 }
      ballFastTimer := 0.01
      ballFastFactor := 1.6 }

/-- Concrete playing state in which the AI paddle is about to hit the ball
at wall-clock time 1500 ms; the last (player) hit happened at time 0. -/
def c7aState : GameState :=
  { demoState with
      ball := { x := 750, y := 250, vx := 3, vy := 0, speed := 5, radius := 8 }
      combo := 1
      lastHitTime := 0 }

/-- Concrete playing state in which the player paddle is about to hit the
ball at wall-clock time 3000 ms; the combo bookkeeping fields equal the
ones produced by the AI hit on `c7aState` (combo 1, lastHitTime 1500),
while the previous player-side hit happened at time 0. -/
def c7bState : GameState :=
  { demoState with
      ball := { x := 40, y := 250, vx := -3, vy := 0, speed := 5, radius := 8 }
      combo := 1
      lastHitTime := 1500 }

/-- Concrete playing state whose ball crosses the left edge on this tick
(post-integration x = −25). -/
def c4State : GameState :=
  { demoState with
      ball := { x := -20, y := 250, vx := -5, vy := 0, speed := 5, radius := 8 } }

/-- Concrete single-player state with adaptive AI on and the player leading
3 : 1, for the adaptive-AI instance. -/
def adaptiveState : GameState :=
  { demoState with
      mode := GameMode.single
      adaptiveAI := true
      player := { demoState.player with score := 3 }
      ai := { demoState.ai with score := 1 } }

end

/-! ## Basic facts about the difficulty table and per-phase frame lemmas -/

lemma ballSpeedMul_pos (d : Difficulty) : 0 < (DIFFICULTY_SETTINGS d).ballSpeedMul := by
  cases d <;> norm_num [DIFFICULTY_SETTINGS]

lemma serveDir_toReal_ne_zero (d : ServeDir) : d.toReal ≠ 0 := by
  cases d <;> norm_num [ServeDir.toReal]

lemma aiSpeedPhase_spec (s : GameState) :
    ∃ v, aiSpeedPhase s = { s with ai := { s.ai with speed := v } } := by
  unfold aiSpeedPhase
  split_ifs <;> exact ⟨_, rfl⟩

lemma movePhase_spec (env : Env) (s : GameState) :
    ∃ pl ai, movePhase env s = { s with player := pl, ai := ai } ∧
      pl.x = s.player.x ∧ pl.score = s.player.score ∧ pl.height = s.player.height ∧
      pl.width = s.player.width ∧ pl.speed = s.player.speed ∧
      ai.x = s.ai.x ∧ ai.score = s.ai.score ∧ ai.height = s.ai.height ∧
      ai.width = s.ai.width ∧ ai.speed = s.ai.speed := by
  unfold movePhase
  split_ifs <;> exact ⟨_, _, rfl, rfl, rfl, rfl, rfl, rfl, rfl, rfl, rfl, rfl, rfl⟩

lemma dyPhase_spec (s : GameState) :
    dyPhase s = { s with
      player := { s.player with dy := s.player.y - s.prevPlayerY }
      ai := { s.ai with dy := s.ai.y - s.prevAiY }
      prevPlayerY := s.player.y
      prevAiY := s.ai.y } := rfl

lemma powerHitPhase_spec (s : GameState) :
    ∃ b t, powerHitPhase s = { s with isPowerHit := b, powerHitTimer := t } := by
  unfold powerHitPhase
  dsimp only
  split_ifs <;> exact ⟨_, _, rfl⟩

lemma spawnPhase_spec (env : Env) (s : GameState) :
    ∃ l t, spawnPhase env s = { s with powerUps := l, powerUpSpawnTimer := t } := by
  unfold spawnPhase
  dsimp only
  split_ifs <;> exact ⟨_, _, rfl⟩

lemma ttlPhase_spec (s : GameState) :
    ∃ l, ttlPhase s = { s with powerUps := l } := by
  unfold ttlPhase
  dsimp only
  split_ifs <;> exact ⟨_, rfl⟩

lemma playerEnlargeBlock_spec (s : GameState) :
    ∃ h t, playerEnlargeBlock s =
      { s with player := { s.player with height := h }, playerPowerUpTimer := t } ∧
      (h = s.player.height ∨ h = PADDLE_HEIGHT) ∧
      (0 < s.playerPowerUpTimer ∨ (h = s.player.height ∧ t = s.playerPowerUpTimer)) := by
  unfold playerEnlargeBlock
  dsimp only
  split_ifs with h1 h2 <;> refine ⟨_, _, rfl, ?_, ?_⟩ <;> simp_all

lemma aiEnlargeBlock_spec (s : GameState) :
    ∃ h t, aiEnlargeBlock s =
      { s with ai := { s.ai with height := h }, aiPowerUpTimer := t } ∧
      (h = s.ai.height ∨ h = PADDLE_HEIGHT) ∧
      (0 < s.aiPowerUpTimer ∨ (h = s.ai.height ∧ t = s.aiPowerUpTimer)) := by
  unfold aiEnlargeBlock
  dsimp only
  split_ifs with h1 h2 <;> refine ⟨_, _, rfl, ?_, ?_⟩ <;> simp_all

lemma playerShrinkBlock_spec (s : GameState) :
    ∃ h t, playerShrinkBlock s =
      { s with player := { s.player with height := h }, playerShrinkTimer := t } ∧
      (h = s.player.height ∨ h = PADDLE_HEIGHT) ∧
      (0 < s.playerShrinkTimer ∨ (h = s.player.height ∧ t = s.playerShrinkTimer)) := by
  unfold playerShrinkBlock
  dsimp only
  split_ifs with h1 h2 <;> refine ⟨_, _, rfl, ?_, ?_⟩ <;> simp_all

lemma aiShrinkBlock_spec (s : GameState) :
    ∃ h t, aiShrinkBlock s =
      { s with ai := { s.ai with height := h }, aiShrinkTimer := t } ∧
      (h = s.ai.height ∨ h = PADDLE_HEIGHT) ∧
      (0 < s.aiShrinkTimer ∨ (h = s.ai.height ∧ t = s.aiShrinkTimer)) := by
  unfold aiShrinkBlock
  dsimp only
  split_ifs with h1 h2 <;> refine ⟨_, _, rfl, ?_, ?_⟩ <;> simp_all

lemma slowTimerPhase_spec (s : GameState) :
    ∃ vx vy f t, slowTimerPhase s =
      { s with ball := { s.ball with vx := vx, vy := vy }
               ballSlowFactor := f
               ballSlowTimer := t } ∧
      ((vx = s.ball.vx ∧ vy = s.ball.vy ∧ f = s.ballSlowFactor) ∨
        (vx = s.ball.vx / s.ballSlowFactor ∧ vy = s.ball.vy / s.ballSlowFactor ∧ f = 1)) := by
  unfold slowTimerPhase
  dsimp only
  split_ifs <;> exact ⟨_, _, _, _, rfl, by simp⟩

lemma fastTimerPhase_spec (s : GameState) :
    ∃ vx vy f t, fastTimerPhase s =
      { s with ball := { s.ball with vx := vx, vy := vy }
               ballFastFactor := f
               ballFastTimer := t } ∧
      ((vx = s.ball.vx ∧ vy = s.ball.vy ∧ f = s.ballFastFactor) ∨
        (vx = s.ball.vx / s.ballFastFactor ∧ vy = s.ball.vy / s.ballFastFactor ∧ f = 1)) := by
  unfold fastTimerPhase
  dsimp only
  split_ifs <;> exact ⟨_, _, _, _, rfl, by simp⟩

/-! ## Composed frame facts over the pre-serve phases -/

/-- Projection of the fields that none of the pre-serve phases of `update`
(adaptive AI speed, movement, displacement bookkeeping, power-hit timer,
power-up subsystem) ever modifies. -/
def coreView (s : GameState) :=
  (s.gameStatus, s.serveCountdown, s.serveDirection, s.serveCountdownLastInt,
   s.mode, s.difficulty, s.winScore, s.winner, s.lastHitBy, s.lastHitTime,
   s.combo, s.rallyCount, s.maxRally, s.matchEndMs,
   s.player.score, s.ai.score, s.player.x, s.ai.x,
   s.ball.x, s.ball.y, s.ball.speed, s.ball.radius)

lemma coreView_aiSpeedPhase (s : GameState) : coreView (aiSpeedPhase s) = coreView s := by
  obtain ⟨v, e⟩ := aiSpeedPhase_spec s
  rw [e]; rfl

lemma coreView_movePhase (env : Env) (s : GameState) :
    coreView (movePhase env s) = coreView s := by
  obtain ⟨pl, ai, e, hx, hsc, _, _, _, hax, hasc, _, _, _⟩ := movePhase_spec env s
  rw [e]
  simp [coreView, hx, hsc, hax, hasc]

lemma coreView_dyPhase (s : GameState) : coreView (dyPhase s) = coreView s := rfl

lemma coreView_powerHitPhase (s : GameState) : coreView (powerHitPhase s) = coreView s := by
  obtain ⟨b, t, e⟩ := powerHitPhase_spec s
  rw [e]; rfl

lemma coreView_spawnPhase (env : Env) (s : GameState) :
    coreView (spawnPhase env s) = coreView s := by
  obtain ⟨l, t, e⟩ := spawnPhase_spec env s
  rw [e]; rfl

lemma coreView_ttlPhase (s : GameState) : coreView (ttlPhase s) = coreView s := by
  obtain ⟨l, e⟩ := ttlPhase_spec s
  rw [e]; rfl

lemma coreView_playerEnlargeBlock (s : GameState) :
    coreView (playerEnlargeBlock s) = coreView s := by
  obtain ⟨h, t, e, _, _⟩ := playerEnlargeBlock_spec s
  rw [e]; rfl

lemma coreView_aiEnlargeBlock (s : GameState) :
    coreView (aiEnlargeBlock s) = coreView s := by
  obtain ⟨h, t, e, _, _⟩ := aiEnlargeBlock_spec s
  rw [e]; rfl

lemma coreView_playerShrinkBlock (s : GameState) :
    coreView (playerShrinkBlock s) = coreView s := by
  obtain ⟨h, t, e, _, _⟩ := playerShrinkBlock_spec s
  rw [e]; rfl

lemma coreView_aiShrinkBlock (s : GameState) :
    coreView (aiShrinkBlock s) = coreView s := by
  obtain ⟨h, t, e, _, _⟩ := aiShrinkBlock_spec s
  rw [e]; rfl

lemma coreView_slowTimerPhase (s : GameState) :
    coreView (slowTimerPhase s) = coreView s := by
  obtain ⟨vx, vy, f, t, e, _⟩ := slowTimerPhase_spec s
  rw [e]; rfl

lemma coreView_fastTimerPhase (s : GameState) :
    coreView (fastTimerPhase s) = coreView s := by
  obtain ⟨vx, vy, f, t, e, _⟩ := fastTimerPhase_spec s
  rw [e]; rfl

lemma coreView_prePhases (env : Env) (s : GameState) :
    coreView (prePhases env s) = coreView s := by
  unfold prePhases powerUpPhase
  rw [coreView_fastTimerPhase, coreView_slowTimerPhase, coreView_aiShrinkBlock,
    coreView_playerShrinkBlock, coreView_aiEnlargeBlock, coreView_playerEnlargeBlock,
    coreView_ttlPhase, coreView_spawnPhase, coreView_powerHitPhase, coreView_dyPhase,
    coreView_movePhase, coreView_aiSpeedPhase]

/-- Projection of the ball together with the slow/fast effect state; only
the slow/fast timer blocks and the post-serve phases touch it. -/
def slowFastView (s : GameState) :=
  (s.ball, s.ballSlowTimer, s.ballFastTimer, s.ballSlowFactor, s.ballFastFactor)

lemma slowFastView_aiSpeedPhase (s : GameState) :
    slowFastView (aiSpeedPhase s) = slowFastView s := by
  obtain ⟨v, e⟩ := aiSpeedPhase_spec s
  rw [e]; rfl

lemma slowFastView_movePhase (env : Env) (s : GameState) :
    slowFastView (movePhase env s) = slowFastView s := by
  obtain ⟨pl, ai, e, _⟩ := movePhase_spec env s
  rw [e]; rfl

lemma slowFastView_dyPhase (s : GameState) : slowFastView (dyPhase s) = slowFastView s := rfl

lemma slowFastView_powerHitPhase (s : GameState) :
    slowFastView (powerHitPhase s) = slowFastView s := by
  obtain ⟨b, t, e⟩ := powerHitPhase_spec s
  rw [e]; rfl

lemma slowFastView_spawnPhase (env : Env) (s : GameState) :
    slowFastView (spawnPhase env s) = slowFastView s := by
  obtain ⟨l, t, e⟩ := spawnPhase_spec env s
  rw [e]; rfl

lemma slowFastView_ttlPhase (s : GameState) :
    slowFastView (ttlPhase s) = slowFastView s := by
  obtain ⟨l, e⟩ := ttlPhase_spec s
  rw [e]; rfl

lemma slowFastView_playerEnlargeBlock (s : GameState) :
    slowFastView (playerEnlargeBlock s) = slowFastView s := by
  obtain ⟨h, t, e, _, _⟩ := playerEnlargeBlock_spec s
  rw [e]; rfl

lemma slowFastView_aiEnlargeBlock (s : GameState) :
    slowFastView (aiEnlargeBlock s) = slowFastView s := by
  obtain ⟨h, t, e, _, _⟩ := aiEnlargeBlock_spec s
  rw [e]; rfl

lemma slowFastView_playerShrinkBlock (s : GameState) :
    slowFastView (playerShrinkBlock s) = slowFastView s := by
  obtain ⟨h, t, e, _, _⟩ := playerShrinkBlock_spec s
  rw [e]; rfl

lemma slowFastView_aiShrinkBlock (s : GameState) :
    slowFastView (aiShrinkBlock s) = slowFastView s := by
  obtain ⟨h, t, e, _, _⟩ := aiShrinkBlock_spec s
  rw [e]; rfl

lemma slowFastView_preSlow (env : Env) (s : GameState) :
    slowFastView (aiShrinkBlock (playerShrinkBlock (aiEnlargeBlock (playerEnlargeBlock
      (ttlPhase (spawnPhase env (powerHitPhase (dyPhase (movePhase env
        (aiSpeedPhase s)))))))))) = slowFastView s := by
  rw [slowFastView_aiShrinkBlock, slowFastView_playerShrinkBlock,
    slowFastView_aiEnlargeBlock, slowFastView_playerEnlargeBlock, slowFastView_ttlPhase,
    slowFastView_spawnPhase, slowFastView_powerHitPhase, slowFastView_dyPhase,
    slowFastView_movePhase, slowFastView_aiSpeedPhase]

lemma slowTimerPhase_nonpos {s : GameState} (h : s.ballSlowTimer ≤ 0) :
    slowTimerPhase s = s := by
  unfold slowTimerPhase
  rw [if_neg (not_lt.mpr h)]

lemma fastTimerPhase_nonpos {s : GameState} (h : s.ballFastTimer ≤ 0) :
    fastTimerPhase s = s := by
  unfold fastTimerPhase
  rw [if_neg (not_lt.mpr h)]

lemma prePhases_ball_of_nonpos (env : Env) {s : GameState}
    (hs : s.ballSlowTimer ≤ 0) (hf : s.ballFastTimer ≤ 0) :
    (prePhases env s).ball = s.ball := by
  unfold prePhases powerUpPhase
  have h := slowFastView_preSlow env s
  set u := aiShrinkBlock (playerShrinkBlock (aiEnlargeBlock (playerEnlargeBlock
    (ttlPhase (spawnPhase env (powerHitPhase (dyPhase (movePhase env
      (aiSpeedPhase s))))))))) with hu
  have hb : u.ball = s.ball := congrArg (fun v => v.1) h
  have hst : u.ballSlowTimer = s.ballSlowTimer := congrArg (fun v => v.2.1) h
  have hft : u.ballFastTimer = s.ballFastTimer := congrArg (fun v => v.2.2.1) h
  rw [slowTimerPhase_nonpos (hst ▸ hs), fastTimerPhase_nonpos (hft ▸ hf), hb]

/-! ## Projections of the pre-serve phases -/

lemma prePhases_gameStatus (env : Env) (s : GameState) :
    (prePhases env s).gameStatus = s.gameStatus :=
  congrArg (fun v => v.1) (coreView_prePhases env s)

lemma prePhases_serveCountdown (env : Env) (s : GameState) :
    (prePhases env s).serveCountdown = s.serveCountdown :=
  congrArg (fun v => v.2.1) (coreView_prePhases env s)

lemma prePhases_serveDirection (env : Env) (s : GameState) :
    (prePhases env s).serveDirection = s.serveDirection :=
  congrArg (fun v => v.2.2.1) (coreView_prePhases env s)

lemma prePhases_serveCountdownLastInt (env : Env) (s : GameState) :
    (prePhases env s).serveCountdownLastInt = s.serveCountdownLastInt :=
  congrArg (fun v => v.2.2.2.1) (coreView_prePhases env s)

lemma prePhases_mode (env : Env) (s : GameState) :
    (prePhases env s).mode = s.mode :=
  congrArg (fun v => v.2.2.2.2.1) (coreView_prePhases env s)

lemma prePhases_difficulty (env : Env) (s : GameState) :
    (prePhases env s).difficulty = s.difficulty :=
  congrArg (fun v => v.2.2.2.2.2.1) (coreView_prePhases env s)

lemma prePhases_winScore (env : Env) (s : GameState) :
    (prePhases env s).winScore = s.winScore :=
  congrArg (fun v => v.2.2.2.2.2.2.1) (coreView_prePhases env s)

lemma prePhases_winner (env : Env) (s : GameState) :
    (prePhases env s).winner = s.winner :=
  congrArg (fun v => v.2.2.2.2.2.2.2.1) (coreView_prePhases env s)

lemma prePhases_lastHitBy (env : Env) (s : GameState) :
    (prePhases env s).lastHitBy = s.lastHitBy :=
  congrArg (fun v => v.2.2.2.2.2.2.2.2.1) (coreView_prePhases env s)

lemma prePhases_lastHitTime (env : Env) (s : GameState) :
    (prePhases env s).lastHitTime = s.lastHitTime :=
  congrArg (fun v => v.2.2.2.2.2.2.2.2.2.1) (coreView_prePhases env s)

lemma prePhases_combo (env : Env) (s : GameState) :
    (prePhases env s).combo = s.combo :=
  congrArg (fun v => v.2.2.2.2.2.2.2.2.2.2.1) (coreView_prePhases env s)

lemma prePhases_rallyCount (env : Env) (s : GameState) :
    (prePhases env s).rallyCount = s.rallyCount :=
  congrArg (fun v => v.2.2.2.2.2.2.2.2.2.2.2.1) (coreView_prePhases env s)

lemma prePhases_maxRally (env : Env) (s : GameState) :
    (prePhases env s).maxRally = s.maxRally :=
  congrArg (fun v => v.2.2.2.2.2.2.2.2.2.2.2.2.1) (coreView_prePhases env s)

lemma prePhases_matchEndMs (env : Env) (s : GameState) :
    (prePhases env s).matchEndMs = s.matchEndMs :=
  congrArg (fun v => v.2.2.2.2.2.2.2.2.2.2.2.2.2.1) (coreView_prePhases env s)

lemma prePhases_player_score (env : Env) (s : GameState) :
    (prePhases env s).player.score = s.player.score :=
  congrArg (fun v => v.2.2.2.2.2.2.2.2.2.2.2.2.2.2.1) (coreView_prePhases env s)

lemma prePhases_ai_score (env : Env) (s : GameState) :
    (prePhases env s).ai.score = s.ai.score :=
  congrArg (fun v => v.2.2.2.2.2.2.2.2.2.2.2.2.2.2.2.1) (coreView_prePhases env s)

lemma prePhases_player_x (env : Env) (s : GameState) :
    (prePhases env s).player.x = s.player.x :=
  congrArg (fun v => v.2.2.2.2.2.2.2.2.2.2.2.2.2.2.2.2.1) (coreView_prePhases env s)

lemma prePhases_ai_x (env : Env) (s : GameState) :
    (prePhases env s).ai.x = s.ai.x :=
  congrArg (fun v => v.2.2.2.2.2.2.2.2.2.2.2.2.2.2.2.2.2.1) (coreView_prePhases env s)

lemma prePhases_ball_x (env : Env) (s : GameState) :
    (prePhases env s).ball.x = s.ball.x :=
  congrArg (fun v => v.2.2.2.2.2.2.2.2.2.2.2.2.2.2.2.2.2.2.1) (coreView_prePhases env s)

lemma prePhases_ball_y (env : Env) (s : GameState) :
    (prePhases env s).ball.y = s.ball.y :=
  congrArg (fun v => v.2.2.2.2.2.2.2.2.2.2.2.2.2.2.2.2.2.2.2.1) (coreView_prePhases env s)

lemma prePhases_ball_speed (env : Env) (s : GameState) :
    (prePhases env s).ball.speed = s.ball.speed :=
  congrArg (fun v => v.2.2.2.2.2.2.2.2.2.2.2.2.2.2.2.2.2.2.2.2.1) (coreView_prePhases env s)

lemma prePhases_ball_radius (env : Env) (s : GameState) :
    (prePhases env s).ball.radius = s.ball.radius :=
  congrArg (fun v => v.2.2.2.2.2.2.2.2.2.2.2.2.2.2.2.2.2.2.2.2.2) (coreView_prePhases env s)

/-! ## Shape of the orchestrator and pickup-fold machinery -/

lemma update_not_playing (env : Env) {s : GameState}
    (h : s.gameStatus ≠ Status.playing) : update env s = s := by
  unfold update
  rw [if_pos h]

lemma update_serve_branch (env : Env) {s : GameState}
    (h1 : s.gameStatus = Status.playing)
    (h2 : 0 < (prePhases env s).serveCountdown) :
    update env s = servePhase env (prePhases env s) := by
  unfold update
  rw [if_neg (by simp [h1])]
  dsimp only
  rw [if_pos h2]

lemma update_rally_branch (env : Env) {s : GameState}
    (h1 : s.gameStatus = Status.playing)
    (h2 : ¬ 0 < (prePhases env s).serveCountdown) :
    update env s = pickupPhase (scoringPhase env (collisionDispatch env.now
      (wallPhase (ballMovePhase (prePhases env s))))) := by
  unfold update
  rw [if_neg (by simp [h1])]
  dsimp only
  rw [if_neg h2]

lemma applyPowerUp_spec (s : GameState) (pu : PowerUp) :
    ∃ pl ai b ppt apt pst ast sf st' ff ft pcp pca, applyPowerUp s pu =
      { s with player := pl, ai := ai, ball := b,
               playerPowerUpTimer := ppt, aiPowerUpTimer := apt,
               playerShrinkTimer := pst, aiShrinkTimer := ast,
               ballSlowFactor := sf, ballSlowTimer := st',
               ballFastFactor := ff, ballFastTimer := ft,
               powerUpsCollectedPlayer := pcp, powerUpsCollectedAi := pca } ∧
      pl.x = s.player.x ∧ pl.y = s.player.y ∧ pl.score = s.player.score ∧
      pl.speed = s.player.speed ∧ pl.width = s.player.width ∧ pl.dy = s.player.dy ∧
      ai.x = s.ai.x ∧ ai.y = s.ai.y ∧ ai.score = s.ai.score ∧
      ai.speed = s.ai.speed ∧ ai.width = s.ai.width ∧ ai.dy = s.ai.dy ∧
      b.x = s.ball.x ∧ b.y = s.ball.y ∧ b.speed = s.ball.speed ∧
      b.radius = s.ball.radius ∧
      (pl.height = s.player.height ∨ pl.height = min (PADDLE_HEIGHT * 1.6) (CANVAS_HEIGHT - 20) ∨
        pl.height = max (PADDLE_HEIGHT * 0.6) 22) ∧
      (ai.height = s.ai.height ∨ ai.height = min (PADDLE_HEIGHT * 1.6) (CANVAS_HEIGHT - 20) ∨
        ai.height = max (PADDLE_HEIGHT * 0.6) 22) ∧
      ((b.vx = s.ball.vx ∧ b.vy = s.ball.vy) ∨ (b.vx = s.ball.vx * 0.6 ∧ b.vy = s.ball.vy * 0.6) ∨
        (b.vx = s.ball.vx * 1.6 ∧ b.vy = s.ball.vy * 1.6)) ∧
      (0 < sf ∨ sf = s.ballSlowFactor) ∧ (0 < ff ∨ ff = s.ballFastFactor) ∧
      ((ppt = 0 ∨ pst = 0) ∨ (ppt = s.playerPowerUpTimer ∧ pst = s.playerShrinkTimer)) ∧
      ((apt = 0 ∨ ast = 0) ∨ (apt = s.aiPowerUpTimer ∧ ast = s.aiShrinkTimer)) := by
  obtain ⟨px, py, pr, ty, pttl, pmax⟩ := pu
  cases ty <;> unfold applyPowerUp <;> dsimp only <;> split_ifs <;>
    refine ⟨_, _, _, _, _, _, _, _, _, _, _, _, _, rfl, rfl, rfl, rfl, rfl, rfl, rfl,
      rfl, rfl, rfl, rfl, rfl, rfl, rfl, rfl, rfl, rfl, ?_, ?_, ?_, ?_, ?_, ?_, ?_⟩ <;>
    first
      | exact Or.inl rfl
      | exact Or.inr rfl
      | exact Or.inr (Or.inl rfl)
      | exact Or.inr (Or.inr rfl)
      | exact Or.inl ⟨rfl, rfl⟩
      | exact Or.inr (Or.inl ⟨rfl, rfl⟩)
      | exact Or.inr (Or.inr ⟨rfl, rfl⟩)
      | exact Or.inl (Or.inl rfl)
      | exact Or.inl (Or.inr rfl)
      | exact Or.inr ⟨rfl, rfl⟩
      | exact Or.inl (by norm_num)

lemma pickup_foldl_pred (P : GameState → Prop)
    (hP : ∀ t pu, P t → P (applyPowerUp t pu)) :
    ∀ (l : List PowerUp) (t : GameState) (acc : List PowerUp),
      P t → P (l.foldl pickupStep (t, acc)).1 := by
  intro l
  induction l with
  | nil => intro t acc h; exact h
  | cons pu rest ih =>
    intro t acc h
    have hstep : pickupStep (t, acc) pu =
        if ballTouchesPowerUp t.ball pu then (applyPowerUp t pu, acc)
        else (t, acc ++ [pu]) := rfl
    rw [List.foldl_cons, hstep]
    split_ifs with hc
    · exact ih _ _ (hP _ _ h)
    · exact ih _ _ h

lemma pickupPhase_pred (P : GameState → Prop)
    (hP : ∀ t pu, P t → P (applyPowerUp t pu))
    (hpow : ∀ t l, P t → P { t with powerUps := l })
    {s : GameState} (h : P s) : P (pickupPhase s) := by
  unfold pickupPhase
  exact hpow _ _ (pickup_foldl_pred P hP _ _ _ h)

/-- Projection of the fields that a power-up pickup never modifies. -/
def pickupView (s : GameState) :=
  (s.gameStatus, s.winner, s.serveCountdown, s.serveDirection, s.mode,
   s.difficulty, s.winScore, s.lastHitBy, s.lastHitTime, s.combo, s.rallyCount,
   s.maxRally, s.matchEndMs, s.player.score, s.ai.score, s.player.x, s.ai.x,
   s.player.y, s.ai.y, s.ai.speed, s.ball.x, s.ball.y, s.ball.speed, s.ball.radius)

lemma applyPowerUp_pickupView (t : GameState) (pu : PowerUp) :
    pickupView (applyPowerUp t pu) = pickupView t := by
  obtain ⟨pl, ai, b, ppt, apt, pst, ast, sf, st', ff, ft, pcp, pca, e, hx, hy, hsc,
    hsp, hw, hdy, hax, hay, hasc, hasp, haw, hady, hbx, hby, hbs, hbr, _⟩ :=
    applyPowerUp_spec t pu
  rw [e]
  simp [pickupView, hx, hy, hsc, hax, hay, hasc, hasp, hbx, hby, hbs, hbr]

lemma pickupPhase_pickupView (s : GameState) :
    pickupView (pickupPhase s) = pickupView s := by
  refine pickupPhase_pred (fun t => pickupView t = pickupView s) ?_ ?_ rfl
  · intro t pu h
    rw [applyPowerUp_pickupView, h]
  · intro t l h
    exact h

lemma applyPowerUp_vx_zero {t : GameState} (pu : PowerUp) (h : t.ball.vx = 0) :
    (applyPowerUp t pu).ball.vx = 0 := by
  obtain ⟨pl, ai, b, ppt, apt, pst, ast, sf, st', ff, ft, pcp, pca, e, -, -, -, -, -,
    -, -, -, -, -, -, -, -, -, -, -, -, -, hv, -⟩ := applyPowerUp_spec t pu
  rw [e]
  rcases hv with ⟨h1, -⟩ | ⟨h1, -⟩ | ⟨h1, -⟩ <;> simp [h1, h]

lemma applyPowerUp_vy_zero {t : GameState} (pu : PowerUp) (h : t.ball.vy = 0) :
    (applyPowerUp t pu).ball.vy = 0 := by
  obtain ⟨pl, ai, b, ppt, apt, pst, ast, sf, st', ff, ft, pcp, pca, e, -, -, -, -, -,
    -, -, -, -, -, -, -, -, -, -, -, -, -, hv, -⟩ := applyPowerUp_spec t pu
  rw [e]
  rcases hv with ⟨-, h1⟩ | ⟨-, h1⟩ | ⟨-, h1⟩ <;> simp [h1, h]

lemma pickupPhase_vx_zero {s : GameState} (h : s.ball.vx = 0) :
    (pickupPhase s).ball.vx = 0 := by
  refine pickupPhase_pred (fun t => t.ball.vx = 0) ?_ ?_ h
  · intro t pu ht
    exact applyPowerUp_vx_zero pu ht
  · intro t l ht
    exact ht

lemma pickupPhase_vy_zero {s : GameState} (h : s.ball.vy = 0) :
    (pickupPhase s).ball.vy = 0 := by
  refine pickupPhase_pred (fun t => t.ball.vy = 0) ?_ ?_ h
  · intro t pu ht
    exact applyPowerUp_vy_zero pu ht
  · intro t l ht
    exact ht

/-! ## Preservation of the AI paddle speed after the adaptive-AI block -/

lemma movePhase_ai_speed (env : Env) (s : GameState) :
    (movePhase env s).ai.speed = s.ai.speed := by
  obtain ⟨pl, ai, e, _, _, _, _, _, _, _, _, _, hspd⟩ := movePhase_spec env s
  rw [e]
  exact hspd

lemma dyPhase_ai_speed (s : GameState) : (dyPhase s).ai.speed = s.ai.speed := rfl

lemma powerHitPhase_ai_speed (s : GameState) :
    (powerHitPhase s).ai.speed = s.ai.speed := by
  obtain ⟨b, t, e⟩ := powerHitPhase_spec s
  rw [e]

lemma spawnPhase_ai_speed (env : Env) (s : GameState) :
    (spawnPhase env s).ai.speed = s.ai.speed := by
  obtain ⟨l, t, e⟩ := spawnPhase_spec env s
  rw [e]

lemma ttlPhase_ai_speed (s : GameState) : (ttlPhase s).ai.speed = s.ai.speed := by
  obtain ⟨l, e⟩ := ttlPhase_spec s
  rw [e]

lemma playerEnlargeBlock_ai_speed (s : GameState) :
    (playerEnlargeBlock s).ai.speed = s.ai.speed := by
  obtain ⟨h, t, e, _, _⟩ := playerEnlargeBlock_spec s
  rw [e]

lemma aiEnlargeBlock_ai_speed (s : GameState) :
    (aiEnlargeBlock s).ai.speed = s.ai.speed := by
  obtain ⟨h, t, e, _, _⟩ := aiEnlargeBlock_spec s
  rw [e]

lemma playerShrinkBlock_ai_speed (s : GameState) :
    (playerShrinkBlock s).ai.speed = s.ai.speed := by
  obtain ⟨h, t, e, _, _⟩ := playerShrinkBlock_spec s
  rw [e]

lemma aiShrinkBlock_ai_speed (s : GameState) :
    (aiShrinkBlock s).ai.speed = s.ai.speed := by
  obtain ⟨h, t, e, _, _⟩ := aiShrinkBlock_spec s
  rw [e]

lemma slowTimerPhase_ai_speed (s : GameState) :
    (slowTimerPhase s).ai.speed = s.ai.speed := by
  obtain ⟨vx, vy, f, t, e, _⟩ := slowTimerPhase_spec s
  rw [e]

lemma fastTimerPhase_ai_speed (s : GameState) :
    (fastTimerPhase s).ai.speed = s.ai.speed := by
  obtain ⟨vx, vy, f, t, e, _⟩ := fastTimerPhase_spec s
  rw [e]

lemma prePhases_ai_speed (env : Env) (s : GameState) :
    (prePhases env s).ai.speed = (aiSpeedPhase s).ai.speed := by
  unfold prePhases powerUpPhase
  rw [fastTimerPhase_ai_speed, slowTimerPhase_ai_speed, aiShrinkBlock_ai_speed,
    playerShrinkBlock_ai_speed, aiEnlargeBlock_ai_speed, playerEnlargeBlock_ai_speed,
    ttlPhase_ai_speed, spawnPhase_ai_speed, powerHitPhase_ai_speed, dyPhase_ai_speed,
    movePhase_ai_speed]

lemma servePhase_ai (env : Env) (s : GameState) : (servePhase env s).ai = s.ai := by
  unfold servePhase resetBall
  dsimp only
  split_ifs <;> rfl

lemma ballMovePhase_ai (s : GameState) : (ballMovePhase s).ai = s.ai := rfl

lemma wallPhase_ai (s : GameState) : (wallPhase s).ai = s.ai := by
  unfold wallPhase
  dsimp only
  split_ifs <;> rfl

lemma checkPaddleCollision_ai (now : ℝ) (s : GameState) (ip : Bool) :
    (checkPaddleCollision now s ip).ai = s.ai := by
  unfold checkPaddleCollision
  dsimp only
  split_ifs <;> rfl

lemma collisionDispatch_ai (now : ℝ) (s : GameState) :
    (collisionDispatch now s).ai = s.ai := by
  unfold collisionDispatch
  split_ifs <;> rw [checkPaddleCollision_ai]

lemma scoringPhase_ai_speed (env : Env) (s : GameState) :
    (scoringPhase env s).ai.speed = s.ai.speed := by
  unfold scoringPhase rightEdgeScore leftEdgeScore prepareServe
  dsimp only
  split_ifs <;> rfl

lemma pickupPhase_ai_speed (s : GameState) :
    (pickupPhase s).ai.speed = s.ai.speed :=
  congrArg (fun v => v.2.2.2.2.2.2.2.2.2.2.2.2.2.2.2.2.2.2.2.1)
    (pickupPhase_pickupView s)

lemma update_ai_speed (env : Env) {s : GameState}
    (h1 : s.gameStatus = Status.playing) :
    (update env s).ai.speed = (aiSpeedPhase s).ai.speed := by
  by_cases h2 : 0 < (prePhases env s).serveCountdown
  · rw [update_serve_branch env h1 h2]
    rw [show (servePhase env (prePhases env s)).ai.speed = (prePhases env s).ai.speed from
      congrArg Paddle.speed (servePhase_ai env (prePhases env s))]
    exact prePhases_ai_speed env s
  · rw [update_rally_branch env h1 h2, pickupPhase_ai_speed, scoringPhase_ai_speed]
    rw [show (collisionDispatch env.now (wallPhase (ballMovePhase (prePhases env s)))).ai
        = (wallPhase (ballMovePhase (prePhases env s))).ai from collisionDispatch_ai _ _]
    rw [wallPhase_ai, ballMovePhase_ai]
    exact prePhases_ai_speed env s

lemma aiSpeedPhase_speed_adaptive (s : GameState) (h2 : s.mode = GameMode.single)
    (ha : s.adaptiveAI = true) :
    (aiSpeedPhase s).ai.speed =
      min (max ((DIFFICULTY_SETTINGS s.difficulty).aiSpeed +
          ((s.player.score : ℝ) - (s.ai.score : ℝ)) * 0.45)
        ((DIFFICULTY_SETTINGS s.difficulty).aiSpeed * 0.6))
        ((DIFFICULTY_SETTINGS s.difficulty).aiSpeed * 2.0) := by
  unfold aiSpeedPhase
  rw [if_pos h2, if_pos ha]
  dsimp only
  split_ifs with hlo hhi hhi
  · rw [max_eq_right hlo.le, min_eq_right hhi.le]
  · rw [max_eq_right hlo.le, min_eq_left (not_lt.mp hhi)]
  · rw [max_eq_left (not_lt.mp hlo), min_eq_right hhi.le]
  · rw [max_eq_left (not_lt.mp hlo), min_eq_left (not_lt.mp hhi)]

lemma aiSpeedPhase_speed_base (s : GameState) (h2 : s.mode = GameMode.single)
    (ha : s.adaptiveAI = false) :
    (aiSpeedPhase s).ai.speed = (DIFFICULTY_SETTINGS s.difficulty).aiSpeed := by
  unfold aiSpeedPhase
  rw [if_pos h2, if_neg (by simp [ha])]

/-! ## Claim C3 -/

/-- C3: for every tick in which `gameStatus` is not `playing` (`menu`,
`paused` or `gameOver`), `update` leaves the ball position, both paddle
positions and both scores unchanged — such a tick is a no-op. -/
theorem C3_update_noop_when_not_playing (env : Env) (s : GameState)
    (h : s.gameStatus ≠ Status.playing) :
    (update env s).ball.x = s.ball.x ∧ (update env s).ball.y = s.ball.y ∧
    (update env s).player.x = s.player.x ∧ (update env s).player.y = s.player.y ∧
    (update env s).ai.x = s.ai.x ∧ (update env s).ai.y = s.ai.y ∧
    (update env s).player.score = s.player.score ∧
    (update env s).ai.score = s.ai.score := by
  rw [update_not_playing env h]
  exact ⟨rfl, rfl, rfl, rfl, rfl, rfl, rfl, rfl⟩

/-- Closed instance of C3 at a concrete menu state. -/
theorem C3_update_noop_when_not_playing_witness :
    menuState.gameStatus ≠ Status.playing ∧
    ((update env0 menuState).ball.x = menuState.ball.x ∧
     (update env0 menuState).ball.y = menuState.ball.y ∧
     (update env0 menuState).player.x = menuState.player.x ∧
     (update env0 menuState).player.y = menuState.player.y ∧
     (update env0 menuState).ai.x = menuState.ai.x ∧
     (update env0 menuState).ai.y = menuState.ai.y ∧
     (update env0 menuState).player.score = menuState.player.score ∧
     (update env0 menuState).ai.score = menuState.ai.score) :=
  ⟨by decide, C3_update_noop_when_not_playing env0 menuState (by decide)⟩

/-! ## Claim C8 -/

/-- C8: in single-player mode, every playing tick recomputes the AI paddle
speed from the live scores as `base + 0.45 × (playerScore − aiScore)`
clamped to `[0.6 × base, 2.0 × base]` when the adaptive-AI flag is on, and
pins it to the difficulty base speed when the flag is off. -/
theorem C8_adaptive_ai_speed (env : Env) (s : GameState)
    (h1 : s.gameStatus = Status.playing) (h2 : s.mode = GameMode.single) :
    (s.adaptiveAI = true → (update env s).ai.speed =
      min (max ((DIFFICULTY_SETTINGS s.difficulty).aiSpeed +
          ((s.player.score : ℝ) - (s.ai.score : ℝ)) * 0.45)
        ((DIFFICULTY_SETTINGS s.difficulty).aiSpeed * 0.6))
        ((DIFFICULTY_SETTINGS s.difficulty).aiSpeed * 2.0)) ∧
    (s.adaptiveAI = false → (update env s).ai.speed =
      (DIFFICULTY_SETTINGS s.difficulty).aiSpeed) := by
  constructor
  · intro ha
    rw [update_ai_speed env h1]
    exact aiSpeedPhase_speed_adaptive s h2 ha
  · intro ha
    rw [update_ai_speed env h1]
    exact aiSpeedPhase_speed_base s h2 ha

/-- Closed instance of C8 at a concrete adaptive single-player state where
the player leads 3 : 1. -/
theorem C8_adaptive_ai_speed_witness :
    adaptiveState.gameStatus = Status.playing ∧
    adaptiveState.mode = GameMode.single ∧
    ((adaptiveState.adaptiveAI = true → (update env0 adaptiveState).ai.speed =
      min (max ((DIFFICULTY_SETTINGS adaptiveState.difficulty).aiSpeed +
          ((adaptiveState.player.score : ℝ) - (adaptiveState.ai.score : ℝ)) * 0.45)
        ((DIFFICULTY_SETTINGS adaptiveState.difficulty).aiSpeed * 0.6))
        ((DIFFICULTY_SETTINGS adaptiveState.difficulty).aiSpeed * 2.0)) ∧
    (adaptiveState.adaptiveAI = false → (update env0 adaptiveState).ai.speed =
      (DIFFICULTY_SETTINGS adaptiveState.difficulty).aiSpeed)) :=
  ⟨rfl, rfl, C8_adaptive_ai_speed env0 adaptiveState rfl rfl⟩

/-! ## Claim C1 -/

lemma checkPaddleCollision_speed (now : ℝ) (s : GameState) (ip : Bool)
    (h : ballHitsPaddle s.ball (if ip then s.player else s.ai)) :
    (checkPaddleCollision now s ip).ball.speed =
      if |(if ip then s.player else s.ai).dy| > 4
      then min (min (s.ball.speed * 1.05)
          (14 * (DIFFICULTY_SETTINGS s.difficulty).ballSpeedMul) * 1.2)
        (16 * (DIFFICULTY_SETTINGS s.difficulty).ballSpeedMul)
      else min (s.ball.speed * 1.05)
        (14 * (DIFFICULTY_SETTINGS s.difficulty).ballSpeedMul) := by
  unfold checkPaddleCollision
  dsimp only
  rw [if_pos h]

/-- C1 (amended): on a paddle collision the speed follows the exact source
formulas; it never exceeds `16 × ballSpeedMul`; it is non-decreasing
whenever the incoming speed is at most `14 × ballSpeedMul` (every rally
state not immediately following a power hit), and a power hit never
decreases it from any speed at most `16 × ballSpeedMul`.  The claim as
stated fails: a normal hit taken at a speed above `14 × ballSpeedMul`
clamps the speed back down to `14 × ballSpeedMul`. -/
theorem C1_speed_escalation (now : ℝ) (s : GameState) (ip : Bool)
    (h : ballHitsPaddle s.ball (if ip then s.player else s.ai))
    (hs : 0 ≤ s.ball.speed) :
    (checkPaddleCollision now s ip).ball.speed =
      (if |(if ip then s.player else s.ai).dy| > 4
       then min (min (s.ball.speed * 1.05)
           (14 * (DIFFICULTY_SETTINGS s.difficulty).ballSpeedMul) * 1.2)
         (16 * (DIFFICULTY_SETTINGS s.difficulty).ballSpeedMul)
       else min (s.ball.speed * 1.05)
         (14 * (DIFFICULTY_SETTINGS s.difficulty).ballSpeedMul)) ∧
    (checkPaddleCollision now s ip).ball.speed ≤
      16 * (DIFFICULTY_SETTINGS s.difficulty).ballSpeedMul ∧
    (s.ball.speed ≤ 14 * (DIFFICULTY_SETTINGS s.difficulty).ballSpeedMul →
      s.ball.speed ≤ (checkPaddleCollision now s ip).ball.speed) ∧
    (s.ball.speed ≤ 16 * (DIFFICULTY_SETTINGS s.difficulty).ballSpeedMul →
      |(if ip then s.player else s.ai).dy| > 4 →
      s.ball.speed ≤ (checkPaddleCollision now s ip).ball.speed) := by
  have hm : 0 < (DIFFICULTY_SETTINGS s.difficulty).ballSpeedMul :=
    ballSpeedMul_pos s.difficulty
  have he := checkPaddleCollision_speed now s ip h
  set mul := (DIFFICULTY_SETTINGS s.difficulty).ballSpeedMul with hmul
  refine ⟨he, ?_, ?_, ?_⟩
  · rw [he]
    by_cases hp : |(if ip then s.player else s.ai).dy| > 4
    · rw [if_pos hp]
      exact min_le_right _ _
    · rw [if_neg hp]
      exact le_trans (min_le_right _ _) (by nlinarith)
  · intro hle
    rw [he]
    by_cases hp : |(if ip then s.player else s.ai).dy| > 4
    · rw [if_pos hp]
      have hq : s.ball.speed ≤ min (s.ball.speed * 1.05) (14 * mul) :=
        le_min (by nlinarith) hle
      have hq0 : 0 ≤ min (s.ball.speed * 1.05) (14 * mul) := le_trans hs hq
      refine le_min (by nlinarith) (by nlinarith)
    · rw [if_neg hp]
      exact le_min (by nlinarith) hle
  · intro hle hp
    rw [he, if_pos hp]
    have hq : s.ball.speed ≤ min (s.ball.speed * 1.05) (14 * mul) * 1.2 := by
      rcases min_cases (s.ball.speed * 1.05) (14 * mul) with ⟨hc, -⟩ | ⟨hc, -⟩ <;>
        rw [hc] <;> nlinarith
    exact le_min hq hle

/-- Closed instance of the amended C1 at a concrete normal hit taken at
speed 16 with ballSpeedMul 1. -/
theorem C1_speed_escalation_witness :
    ballHitsPaddle c1State.ball (if true then c1State.player else c1State.ai) ∧
    (0 : ℝ) ≤ c1State.ball.speed ∧
    ((checkPaddleCollision 0 c1State true).ball.speed =
      (if |(if true then c1State.player else c1State.ai).dy| > 4
       then min (min (c1State.ball.speed * 1.05)
           (14 * (DIFFICULTY_SETTINGS c1State.difficulty).ballSpeedMul) * 1.2)
         (16 * (DIFFICULTY_SETTINGS c1State.difficulty).ballSpeedMul)
       else min (c1State.ball.speed * 1.05)
         (14 * (DIFFICULTY_SETTINGS c1State.difficulty).ballSpeedMul)) ∧
    (checkPaddleCollision 0 c1State true).ball.speed ≤
      16 * (DIFFICULTY_SETTINGS c1State.difficulty).ballSpeedMul ∧
    (c1State.ball.speed ≤ 14 * (DIFFICULTY_SETTINGS c1State.difficulty).ballSpeedMul →
      c1State.ball.speed ≤ (checkPaddleCollision 0 c1State true).ball.speed) ∧
    (c1State.ball.speed ≤ 16 * (DIFFICULTY_SETTINGS c1State.difficulty).ballSpeedMul →
      |(if true then c1State.player else c1State.ai).dy| > 4 →
      c1State.ball.speed ≤ (checkPaddleCollision 0 c1State true).ball.speed)) :=
  ⟨by norm_num [ballHitsPaddle, c1State, demoState],
   by norm_num [c1State, demoState],
   C1_speed_escalation 0 c1State true
     (by norm_num [ballHitsPaddle, c1State, demoState])
     (by norm_num [c1State, demoState])⟩

/-- Counterexample to C1 as stated: in a playing tick processed by `update`
(medium difficulty, so ballSpeedMul 1), a normal left-paddle hit taken while
the ball speed field holds 16 — the value a power hit can push it to —
yields speed 14 < 16, so the speed after a paddle collision is not
monotonically non-decreasing. -/
theorem C1_claim_counterexample :
    (update env0 c1State).ball.speed = 14 ∧ c1State.ball.speed = 16 ∧
    (update env0 c1State).ball.speed < c1State.ball.speed := by
  have h : (update env0 c1State).ball.speed = 14 := by
    norm_num [update, prePhases, aiSpeedPhase, movePhase, dyPhase, powerHitPhase,
      powerUpPhase, spawnPhase, ttlPhase, playerEnlargeBlock, aiEnlargeBlock,
      playerShrinkBlock, aiShrinkBlock, slowTimerPhase, fastTimerPhase, servePhase,
      resetBall, ballMovePhase, wallPhase, collisionDispatch, checkPaddleCollision,
      ballHitsPaddle, scoringPhase, leftEdgeScore, rightEdgeScore, prepareServe,
      pickupPhase, pickupStep,
      applyPowerUp, clampPaddleY, env0, c1State, demoState, CANVAS_WIDTH,
      CANVAS_HEIGHT, PADDLE_WIDTH, PADDLE_HEIGHT, BALL_RADIUS, PADDLE_MARGIN,
      BALL_INITIAL_SPEED, DIFFICULTY_SETTINGS, nextSpawnInterval]
  refine ⟨h, rfl, ?_⟩
  rw [h]
  norm_num [c1State]

/-! ## Claim C2 -/

lemma checkPaddleCollision_vel (now : ℝ) (s : GameState) (ip : Bool)
    (h : ballHitsPaddle s.ball (if ip then s.player else s.ai)) :
    (checkPaddleCollision now s ip).ball.vx =
      Real.cos (((s.ball.y - ((if ip then s.player else s.ai).y +
          (if ip then s.player else s.ai).height / 2)) /
          ((if ip then s.player else s.ai).height / 2)) * (Real.pi / 3)) *
        min (s.ball.speed * 1.05) (14 * (DIFFICULTY_SETTINGS s.difficulty).ballSpeedMul) *
        (if ip then 1 else -1) * (s.ballSlowFactor * s.ballFastFactor) ∧
    (checkPaddleCollision now s ip).ball.vy =
      Real.sin (((s.ball.y - ((if ip then s.player else s.ai).y +
          (if ip then s.player else s.ai).height / 2)) /
          ((if ip then s.player else s.ai).height / 2)) * (Real.pi / 3)) *
        min (s.ball.speed * 1.05) (14 * (DIFFICULTY_SETTINGS s.difficulty).ballSpeedMul) *
        (s.ballSlowFactor * s.ballFastFactor) ∧
    (checkPaddleCollision now s ip).ballSlowFactor = s.ballSlowFactor ∧
    (checkPaddleCollision now s ip).ballFastFactor = s.ballFastFactor := by
  unfold checkPaddleCollision
  dsimp only
  rw [if_pos h]
  exact ⟨rfl, rfl, rfl, rfl⟩

lemma deflection_magnitude (θ a side m : ℝ) (ha : 0 ≤ a) (hm : 0 ≤ m)
    (hside : side = 1 ∨ side = -1) :
    Real.sqrt ((Real.cos θ * a * side * m) ^ 2 + (Real.sin θ * a * m) ^ 2) = a * m := by
  have key : (Real.cos θ * a * side * m) ^ 2 + (Real.sin θ * a * m) ^ 2 = (a * m) ^ 2 := by
    rcases hside with h | h <;> subst h <;> nlinarith [Real.sin_sq_add_cos_sq θ]
  rw [key, Real.sqrt_sq (mul_nonneg ha hm)]

/-- C2 (amended): after a paddle collision the ball velocity magnitude
equals the speed value captured after the ×1.05 escalation multiplied by
`slowFactor × fastFactor`; on a normal (non-power) hit this speed value is
exactly the resulting `ball.speed` field, so the claimed invariant holds
there.  The claim as stated fails on power hits: the velocity assignment
uses the local `speed` captured before the ×1.2 power boost, while the
`speed` field also receives the boost. -/
theorem C2_velocity_magnitude_invariant (now : ℝ) (s : GameState) (ip : Bool)
    (h : ballHitsPaddle s.ball (if ip then s.player else s.ai))
    (hs : 0 ≤ s.ball.speed) (hsf : 0 ≤ s.ballSlowFactor) (hff : 0 ≤ s.ballFastFactor) :
    Real.sqrt ((checkPaddleCollision now s ip).ball.vx ^ 2 +
        (checkPaddleCollision now s ip).ball.vy ^ 2) =
      min (s.ball.speed * 1.05) (14 * (DIFFICULTY_SETTINGS s.difficulty).ballSpeedMul) *
        (s.ballSlowFactor * s.ballFastFactor) ∧
    (¬ |(if ip then s.player else s.ai).dy| > 4 →
      Real.sqrt ((checkPaddleCollision now s ip).ball.vx ^ 2 +
          (checkPaddleCollision now s ip).ball.vy ^ 2) =
        (checkPaddleCollision now s ip).ball.speed *
          (checkPaddleCollision now s ip).ballSlowFactor *
          (checkPaddleCollision now s ip).ballFastFactor) := by
  have hm : 0 < (DIFFICULTY_SETTINGS s.difficulty).ballSpeedMul :=
    ballSpeedMul_pos s.difficulty
  obtain ⟨hvx, hvy, hfs, hf⟩ := checkPaddleCollision_vel now s ip h
  have ha : 0 ≤ min (s.ball.speed * 1.05)
      (14 * (DIFFICULTY_SETTINGS s.difficulty).ballSpeedMul) :=
    le_min (by nlinarith) (by nlinarith)
  have hmag : Real.sqrt ((checkPaddleCollision now s ip).ball.vx ^ 2 +
      (checkPaddleCollision now s ip).ball.vy ^ 2) =
      min (s.ball.speed * 1.05) (14 * (DIFFICULTY_SETTINGS s.difficulty).ballSpeedMul) *
        (s.ballSlowFactor * s.ballFastFactor) := by
    rw [hvx, hvy]
    exact deflection_magnitude _ _ _ _ ha (mul_nonneg hsf hff)
      (by split_ifs <;> simp)
  refine ⟨hmag, fun hp => ?_⟩
  rw [hmag, checkPaddleCollision_speed now s ip h, if_neg hp, hfs, hf]
  ring

/-- Closed instance of the amended C2 at a concrete normal left-paddle hit. -/
theorem C2_velocity_magnitude_invariant_witness :
    ballHitsPaddle c1State.ball (if true then c1State.player else c1State.ai) ∧
    (0 : ℝ) ≤ c1State.ball.speed ∧ (0 : ℝ) ≤ c1State.ballSlowFactor ∧
    (0 : ℝ) ≤ c1State.ballFastFactor ∧
    (Real.sqrt ((checkPaddleCollision 0 c1State true).ball.vx ^ 2 +
        (checkPaddleCollision 0 c1State true).ball.vy ^ 2) =
      min (c1State.ball.speed * 1.05)
          (14 * (DIFFICULTY_SETTINGS c1State.difficulty).ballSpeedMul) *
        (c1State.ballSlowFactor * c1State.ballFastFactor) ∧
    (¬ |(if true then c1State.player else c1State.ai).dy| > 4 →
      Real.sqrt ((checkPaddleCollision 0 c1State true).ball.vx ^ 2 +
          (checkPaddleCollision 0 c1State true).ball.vy ^ 2) =
        (checkPaddleCollision 0 c1State true).ball.speed *
          (checkPaddleCollision 0 c1State true).ballSlowFactor *
          (checkPaddleCollision 0 c1State true).ballFastFactor)) :=
  ⟨by norm_num [ballHitsPaddle, c1State, demoState],
   by norm_num [c1State, demoState],
   by norm_num [c1State, demoState],
   by norm_num [c1State, demoState],
   C2_velocity_magnitude_invariant 0 c1State true
     (by norm_num [ballHitsPaddle, c1State, demoState])
     (by norm_num [c1State, demoState]) (by norm_num [c1State, demoState])
     (by norm_num [c1State, demoState])⟩

/-- Counterexample to C2 as stated: on a concrete power hit (paddle
displacement 5, incoming speed 5, ballSpeedMul 1, both factors 1) the
velocity magnitude is 5.25 — the speed after the ×1.05 escalation — while
the escalated speed field holds 6.3, so magnitude ≠ speed × slowFactor ×
fastFactor. -/
theorem C2_claim_counterexample :
    Real.sqrt ((checkPaddleCollision 0 c2State true).ball.vx ^ 2 +
        (checkPaddleCollision 0 c2State true).ball.vy ^ 2) ≠
      (checkPaddleCollision 0 c2State true).ball.speed *
        (checkPaddleCollision 0 c2State true).ballSlowFactor *
        (checkPaddleCollision 0 c2State true).ballFastFactor := by
  have h : ballHitsPaddle c2State.ball (if true then c2State.player else c2State.ai) := by
    norm_num [ballHitsPaddle, c2State, demoState]
  obtain ⟨hvx, hvy, hfs, hf⟩ := checkPaddleCollision_vel 0 c2State true h
  have hmag : Real.sqrt ((checkPaddleCollision 0 c2State true).ball.vx ^ 2 +
      (checkPaddleCollision 0 c2State true).ball.vy ^ 2) = 5.25 := by
    rw [hvx, hvy]
    have := deflection_magnitude
      (((c2State.ball.y - ((if true then c2State.player else c2State.ai).y +
        (if true then c2State.player else c2State.ai).height / 2)) /
        ((if true then c2State.player else c2State.ai).height / 2)) * (Real.pi / 3))
      (min (c2State.ball.speed * 1.05)
        (14 * (DIFFICULTY_SETTINGS c2State.difficulty).ballSpeedMul))
      (if (true : Bool) then (1 : ℝ) else -1)
      (c2State.ballSlowFactor * c2State.ballFastFactor)
      (by norm_num [c2State, demoState, DIFFICULTY_SETTINGS])
      (by norm_num [c2State, demoState]) (by norm_num)
    rw [this]
    norm_num [c2State, demoState, DIFFICULTY_SETTINGS]
  have hspeed : (checkPaddleCollision 0 c2State true).ball.speed = 6.3 := by
    rw [checkPaddleCollision_speed 0 c2State true h]
    norm_num [c2State, demoState, DIFFICULTY_SETTINGS]
  rw [hmag, hspeed, hfs, hf]
  norm_num [c2State, demoState]

/-! ## Claim C6 -/

lemma sqrt_div_sq (vx vy f : ℝ) (hf : f ≠ 0) :
    Real.sqrt ((vx / f) ^ 2 + (vy / f) ^ 2) = Real.sqrt (vx ^ 2 + vy ^ 2) / |f| := by
  have h1 : (vx / f) ^ 2 + (vy / f) ^ 2 = (vx ^ 2 + vy ^ 2) / f ^ 2 := by
    field_simp
  rw [h1, Real.sqrt_div (by positivity), Real.sqrt_sq_eq_abs]

/-- C6: when the slow (resp. fast) timer expires during a tick, the recorded
factor is divided back out of the ball velocity exactly and the factor
resets to 1 while the other factor is untouched; the velocity magnitude
returns to its pre-factor value (divided by the absolute recorded factor). -/
theorem C6_factor_division_on_expiry (s : GameState) :
    (0 < s.ballSlowTimer → s.ballSlowTimer - 1 / 60 ≤ 0 → s.ballSlowFactor ≠ 0 →
      (slowTimerPhase s).ball.vx = s.ball.vx / s.ballSlowFactor ∧
      (slowTimerPhase s).ball.vy = s.ball.vy / s.ballSlowFactor ∧
      (slowTimerPhase s).ballSlowFactor = 1 ∧
      (slowTimerPhase s).ballFastFactor = s.ballFastFactor ∧
      (slowTimerPhase s).ballSlowTimer = 0 ∧
      Real.sqrt ((slowTimerPhase s).ball.vx ^ 2 + (slowTimerPhase s).ball.vy ^ 2) =
        Real.sqrt (s.ball.vx ^ 2 + s.ball.vy ^ 2) / |s.ballSlowFactor|) ∧
    (0 < s.ballFastTimer → s.ballFastTimer - 1 / 60 ≤ 0 → s.ballFastFactor ≠ 0 →
      (fastTimerPhase s).ball.vx = s.ball.vx / s.ballFastFactor ∧
      (fastTimerPhase s).ball.vy = s.ball.vy / s.ballFastFactor ∧
      (fastTimerPhase s).ballFastFactor = 1 ∧
      (fastTimerPhase s).ballSlowFactor = s.ballSlowFactor ∧
      (fastTimerPhase s).ballFastTimer = 0 ∧
      Real.sqrt ((fastTimerPhase s).ball.vx ^ 2 + (fastTimerPhase s).ball.vy ^ 2) =
        Real.sqrt (s.ball.vx ^ 2 + s.ball.vy ^ 2) / |s.ballFastFactor|) := by
  constructor
  · intro h1 h2 h3
    have he : slowTimerPhase s =
        if s.ballSlowFactor ≠ 1 then
          { s with ball := { s.ball with vx := s.ball.vx / s.ballSlowFactor,
                                         vy := s.ball.vy / s.ballSlowFactor }
                   ballSlowFactor := 1, ballSlowTimer := 0 }
        else { s with ballSlowTimer := 0 } := by
      unfold slowTimerPhase
      dsimp only
      rw [if_pos h1, if_pos h2]
    by_cases hne : s.ballSlowFactor ≠ 1
    · rw [he, if_pos hne]
      exact ⟨rfl, rfl, rfl, rfl, rfl, sqrt_div_sq _ _ _ h3⟩
    · have h1' : s.ballSlowFactor = 1 := not_not.mp hne
      rw [he, if_neg hne]
      refine ⟨by rw [h1', div_one], by rw [h1', div_one], h1', rfl, rfl, ?_⟩
      rw [h1']
      simp
  · intro h1 h2 h3
    have he : fastTimerPhase s =
        if s.ballFastFactor ≠ 1 then
          { s with ball := { s.ball with vx := s.ball.vx / s.ballFastFactor,
                                         vy := s.ball.vy / s.ballFastFactor }
                   ballFastFactor := 1, ballFastTimer := 0 }
        else { s with ballFastTimer := 0 } := by
      unfold fastTimerPhase
      dsimp only
      rw [if_pos h1, if_pos h2]
    by_cases hne : s.ballFastFactor ≠ 1
    · rw [he, if_pos hne]
      exact ⟨rfl, rfl, rfl, rfl, rfl, sqrt_div_sq _ _ _ h3⟩
    · have h1' : s.ballFastFactor = 1 := not_not.mp hne
      rw [he, if_neg hne]
      refine ⟨by rw [h1', div_one], by rw [h1', div_one], h1', rfl, rfl, ?_⟩
      rw [h1']
      simp

/-- Closed instance of C6: a slow factor 0.6 and a fast factor 1.6, each
expiring on the next tick. -/
theorem C6_factor_division_on_expiry_witness :
    ((0 : ℝ) < c6State.ballSlowTimer ∧ c6State.ballSlowTimer - 1 / 60 ≤ 0 ∧
      c6State.ballSlowFactor ≠ 0) ∧
    ((0 : ℝ) < c6fState.ballFastTimer ∧ c6fState.ballFastTimer - 1 / 60 ≤ 0 ∧
      c6fState.ballFastFactor ≠ 0) ∧
    ((slowTimerPhase c6State).ball.vx = c6State.ball.vx / c6State.ballSlowFactor ∧
      (slowTimerPhase c6State).ball.vy = c6State.ball.vy / c6State.ballSlowFactor ∧
      (slowTimerPhase c6State).ballSlowFactor = 1 ∧
      (slowTimerPhase c6State).ballFastFactor = c6State.ballFastFactor ∧
      (slowTimerPhase c6State).ballSlowTimer = 0 ∧
      Real.sqrt ((slowTimerPhase c6State).ball.vx ^ 2 + (slowTimerPhase c6State).ball.vy ^ 2) =
        Real.sqrt (c6State.ball.vx ^ 2 + c6State.ball.vy ^ 2) / |c6State.ballSlowFactor|) ∧
    ((fastTimerPhase c6fState).ball.vx = c6fState.ball.vx / c6fState.ballFastFactor ∧
      (fastTimerPhase c6fState).ball.vy = c6fState.ball.vy / c6fState.ballFastFactor ∧
      (fastTimerPhase c6fState).ballFastFactor = 1 ∧
      (fastTimerPhase c6fState).ballSlowFactor = c6fState.ballSlowFactor ∧
      (fastTimerPhase c6fState).ballFastTimer = 0 ∧
      Real.sqrt ((fastTimerPhase c6fState).ball.vx ^ 2 + (fastTimerPhase c6fState).ball.vy ^ 2) =
        Real.sqrt (c6fState.ball.vx ^ 2 + c6fState.ball.vy ^ 2) / |c6fState.ballFastFactor|) :=
  ⟨⟨by norm_num [c6State, demoState], by norm_num [c6State, demoState],
    by norm_num [c6State, demoState]⟩,
   ⟨by norm_num [c6fState, demoState], by norm_num [c6fState, demoState],
    by norm_num [c6fState, demoState]⟩,
   (C6_factor_division_on_expiry c6State).1 (by norm_num [c6State, demoState])
     (by norm_num [c6State, demoState]) (by norm_num [c6State, demoState]),
   (C6_factor_division_on_expiry c6fState).2 (by norm_num [c6fState, demoState])
     (by norm_num [c6fState, demoState]) (by norm_num [c6fState, demoState])⟩

/-! ## Claim C7 -/

/-- C7 (amended): the combo counter changes only on player-side collisions —
it increments when the previous paddle hit by either side was less than
2000 ms earlier and resets to 1 otherwise, and an AI hit leaves the counter
itself unchanged; however every hit, including an AI hit, overwrites the
shared last-hit timestamp that the 2000 ms window is measured against, so
the window is measured from the last hit by either paddle, not from the
previous player-side hit. -/
theorem C7_combo_bookkeeping (now : ℝ) (s : GameState) (ip : Bool)
    (h : ballHitsPaddle s.ball (if ip then s.player else s.ai)) :
    (checkPaddleCollision now s ip).combo =
      (if ip then (if now - s.lastHitTime < 2000 then s.combo + 1 else 1) else s.combo) ∧
    (checkPaddleCollision now s ip).lastHitTime = now := by
  have he : (checkPaddleCollision now s ip).combo =
      if now - s.lastHitTime < 2000 ∧ ip then s.combo + 1
      else if ip then 1 else s.combo := by
    unfold checkPaddleCollision
    dsimp only
    rw [if_pos h]
  constructor
  · rw [he]
    cases ip
    · simp
    · by_cases hc : now - s.lastHitTime < 2000 <;> simp [hc]
  · unfold checkPaddleCollision
    dsimp only
    rw [if_pos h]

/-- Closed instance of the amended C7 at a concrete player hit taken
1500 ms after the last hit. -/
theorem C7_combo_bookkeeping_witness :
    ballHitsPaddle c7bState.ball (if true then c7bState.player else c7bState.ai) ∧
    ((checkPaddleCollision 3000 c7bState true).combo =
      (if true then (if (3000 : ℝ) - c7bState.lastHitTime < 2000
        then c7bState.combo + 1 else 1) else c7bState.combo) ∧
    (checkPaddleCollision 3000 c7bState true).lastHitTime = 3000) :=
  ⟨by norm_num [ballHitsPaddle, c7bState, demoState],
   C7_combo_bookkeeping 3000 c7bState true
     (by norm_num [ballHitsPaddle, c7bState, demoState])⟩

/-- Counterexample to C7 as stated.  Timeline: a player hit at time 0 set
combo 1 and lastHitTime 0 (state `c7aState` carries those fields); the AI
hits at 1500 ms, leaving combo at 1 but overwriting lastHitTime with 1500;
state `c7bState` carries exactly the combo bookkeeping produced by that AI
hit with the ball back at the left paddle.  The next player hit at 3000 ms
— a full 3000 ms after the previous player-side hit, so the claim requires
a reset to 1 — instead increments combo to 2, because the code measures
the 2000 ms window from the AI hit. -/
theorem C7_claim_counterexample :
    (checkPaddleCollision 1500 c7aState false).combo = c7aState.combo ∧
    (checkPaddleCollision 1500 c7aState false).lastHitTime = 1500 ∧
    c7bState.combo = (checkPaddleCollision 1500 c7aState false).combo ∧
    c7bState.lastHitTime = (checkPaddleCollision 1500 c7aState false).lastHitTime ∧
    (checkPaddleCollision 3000 c7bState true).combo = 2 ∧
    (3000 : ℝ) - (0 : ℝ) ≥ 2000 := by
  refine ⟨?_, ?_, ?_, ?_, ?_, by norm_num⟩ <;>
    norm_num [checkPaddleCollision, ballHitsPaddle, c7aState, c7bState, demoState,
      DIFFICULTY_SETTINGS]

/-! ## Pickup-phase projections and collision negatives -/

lemma pickupPhase_gameStatus (s : GameState) :
    (pickupPhase s).gameStatus = s.gameStatus :=
  congrArg (fun v => v.1) (pickupPhase_pickupView s)

lemma pickupPhase_winner (s : GameState) :
    (pickupPhase s).winner = s.winner :=
  congrArg (fun v => v.2.1) (pickupPhase_pickupView s)

lemma pickupPhase_serveCountdown (s : GameState) :
    (pickupPhase s).serveCountdown = s.serveCountdown :=
  congrArg (fun v => v.2.2.1) (pickupPhase_pickupView s)

lemma pickupPhase_player_score (s : GameState) :
    (pickupPhase s).player.score = s.player.score :=
  congrArg (fun v => v.2.2.2.2.2.2.2.2.2.2.2.2.2.1) (pickupPhase_pickupView s)

lemma pickupPhase_ai_score (s : GameState) :
    (pickupPhase s).ai.score = s.ai.score :=
  congrArg (fun v => v.2.2.2.2.2.2.2.2.2.2.2.2.2.2.1) (pickupPhase_pickupView s)

lemma pickupPhase_ball_x (s : GameState) :
    (pickupPhase s).ball.x = s.ball.x :=
  congrArg (fun v => v.2.2.2.2.2.2.2.2.2.2.2.2.2.2.2.2.2.2.2.2.1) (pickupPhase_pickupView s)

lemma pickupPhase_ball_y (s : GameState) :
    (pickupPhase s).ball.y = s.ball.y :=
  congrArg (fun v => v.2.2.2.2.2.2.2.2.2.2.2.2.2.2.2.2.2.2.2.2.2.1) (pickupPhase_pickupView s)

lemma wallPhase_spec (s : GameState) :
    ∃ y vy, wallPhase s = { s with ball := { s.ball with y := y, vy := vy } } := by
  unfold wallPhase
  dsimp only
  split_ifs <;> exact ⟨_, _, rfl⟩

lemma ballMovePhase_spec (s : GameState) :
    ballMovePhase s =
      { s with ball := { s.ball with
          x := s.ball.x + s.ball.vx
          y := s.ball.y + s.ball.vy } } := rfl

lemma wallMove_spec (u : GameState) :
    ∃ y vy, wallPhase (ballMovePhase u) =
      { u with ball := { u.ball with x := u.ball.x + u.ball.vx, y := y, vy := vy } } := by
  obtain ⟨y, vy, hw⟩ := wallPhase_spec (ballMovePhase u)
  exact ⟨y, vy, by rw [hw]; rfl⟩

lemma checkPaddleCollision_not (now : ℝ) (s : GameState) (ip : Bool)
    (h : ¬ ballHitsPaddle s.ball (if ip then s.player else s.ai)) :
    checkPaddleCollision now s ip = s := by
  unfold checkPaddleCollision
  dsimp only
  rw [if_neg h]

lemma scoringPhase_left (env : Env) (u : GameState) (hx : u.ball.x < -20) :
    scoringPhase env u =
      if u.ai.score + 1 ≥ u.winScore then
        { u with ai := { u.ai with score := u.ai.score + 1 }
                 gameStatus := Status.gameOver
                 winner := if u.mode = GameMode.multi then "P2" else "AI"
                 matchEndMs := env.now }
      else prepareServe ServeDir.neg { u with ai := { u.ai with score := u.ai.score + 1 } } := by
  unfold scoringPhase rightEdgeScore leftEdgeScore
  dsimp only
  rw [if_pos hx]
  by_cases hcond : u.ai.score + 1 ≥ u.winScore
  · rw [if_pos hcond, if_neg (show ¬ u.ball.x > CANVAS_WIDTH + 20 by
      rw [CANVAS_WIDTH]; push_neg; linarith)]
  · rw [if_neg hcond, if_neg (show ¬ (prepareServe ServeDir.neg
      { u with ai := { u.ai with score := u.ai.score + 1 } }).ball.x > CANVAS_WIDTH + 20 by
      show ¬ CANVAS_WIDTH / 2 > CANVAS_WIDTH + 20
      rw [CANVAS_WIDTH]; norm_num)]

/-! ## Claim C4 -/

/-- C4: if during a playing tick (no pending serve countdown, no slow/fast
expiry this tick, geometry constants in place) the ball crosses past
`x < −20`, the right side scores exactly one point; then either the match
ends with the right side as winner (new score at the win threshold) or a new
serve sequence starts with the ball centered, velocity zero and a 3 second
countdown. -/
theorem C4_left_edge_scoring (env : Env) (s : GameState)
    (h1 : s.gameStatus = Status.playing)
    (h2 : s.serveCountdown ≤ 0)
    (h3 : s.ballSlowTimer ≤ 0) (h4 : s.ballFastTimer ≤ 0)
    (h5 : s.ball.x + s.ball.vx < -20)
    (h6 : s.ball.radius = 8) (h7 : s.player.x = 30) (h8 : s.ai.x = 756) :
    (update env s).ai.score = s.ai.score + 1 ∧
    (s.winScore ≤ s.ai.score + 1 →
      (update env s).gameStatus = Status.gameOver ∧
      (update env s).winner = (if s.mode = GameMode.multi then "P2" else "AI")) ∧
    (s.ai.score + 1 < s.winScore →
      (update env s).ball.x = CANVAS_WIDTH / 2 ∧
      (update env s).ball.y = CANVAS_HEIGHT / 2 ∧
      (update env s).ball.vx = 0 ∧ (update env s).ball.vy = 0 ∧
      (update env s).serveCountdown = 3) := by
  have hscd : (prePhases env s).serveCountdown = s.serveCountdown :=
    prePhases_serveCountdown env s
  have hbr := update_rally_branch env h1 (by rw [hscd]; exact not_lt.mpr h2)
  have hball : (prePhases env s).ball = s.ball := prePhases_ball_of_nonpos env h3 h4
  obtain ⟨wy, wvy, hwm⟩ := wallMove_spec (prePhases env s)
  rw [hwm] at hbr
  set t5 := prePhases env s with ht5
  have hbx : t5.ball.x = s.ball.x := congrArg Ball.x hball
  have hbvx : t5.ball.vx = s.ball.vx := congrArg Ball.vx hball
  have hbr8 : t5.ball.radius = 8 := (congrArg Ball.radius hball).trans h6
  have hpx : t5.player.x = 30 := (prePhases_player_x env s).trans h7
  have hax : t5.ai.x = 756 := (prePhases_ai_x env s).trans h8
  have hasc : t5.ai.score = s.ai.score := prePhases_ai_score env s
  have hws : t5.winScore = s.winScore := prePhases_winScore env s
  have hmode : t5.mode = s.mode := prePhases_mode env s
  have hx5 : t5.ball.x + t5.ball.vx < -20 := by rw [hbx, hbvx]; exact h5
  have hnc : collisionDispatch env.now
      { t5 with ball := { t5.ball with x := t5.ball.x + t5.ball.vx, y := wy, vy := wvy } } =
      { t5 with ball := { t5.ball with x := t5.ball.x + t5.ball.vx, y := wy, vy := wvy } } := by
    unfold collisionDispatch
    split_ifs with hv
    · refine checkPaddleCollision_not _ _ _ (fun hcon => ?_)
      have hgt : t5.ball.x + t5.ball.vx + t5.ball.radius > t5.player.x := hcon.2.1
      rw [hbr8, hpx] at hgt
      linarith
    · refine checkPaddleCollision_not _ _ _ (fun hcon => ?_)
      have hgt : t5.ball.x + t5.ball.vx + t5.ball.radius > t5.ai.x := hcon.2.1
      rw [hbr8, hax] at hgt
      linarith
  rw [hnc] at hbr
  rw [scoringPhase_left env _ (show t5.ball.x + t5.ball.vx < -20 from hx5)] at hbr
  by_cases hw : s.winScore ≤ s.ai.score + 1
  · have hcond : t5.ai.score + 1 ≥ t5.winScore := by rw [hasc, hws]; exact hw
    rw [if_pos hcond] at hbr
    refine ⟨?_, fun _ => ⟨?_, ?_⟩, fun habs => absurd hw (by omega)⟩
    · rw [hbr, pickupPhase_ai_score]
      show t5.ai.score + 1 = s.ai.score + 1
      rw [hasc]
    · rw [hbr, pickupPhase_gameStatus]
    · rw [hbr, pickupPhase_winner]
      show (if t5.mode = GameMode.multi then "P2" else "AI") = _
      rw [hmode]
  · have hcond : ¬ t5.ai.score + 1 ≥ t5.winScore := by rw [hasc, hws]; exact hw
    rw [if_neg hcond] at hbr
    refine ⟨?_, fun habs => absurd habs hw, fun _ => ⟨?_, ?_, ?_, ?_, ?_⟩⟩
    · rw [hbr, pickupPhase_ai_score]
      show t5.ai.score + 1 = s.ai.score + 1
      rw [hasc]
    · rw [hbr, pickupPhase_ball_x]
      rfl
    · rw [hbr, pickupPhase_ball_y]
      rfl
    · exact hbr ▸ pickupPhase_vx_zero rfl
    · exact hbr ▸ pickupPhase_vy_zero rfl
    · rw [hbr, pickupPhase_serveCountdown]
      rfl

/-- Closed instance of C4: ball at x = −20 moving left at 5 crosses the
left edge; score 0 : 0 with winScore 7, so a new serve sequence starts. -/
theorem C4_left_edge_scoring_witness :
    c4State.gameStatus = Status.playing ∧ c4State.serveCountdown ≤ 0 ∧
    c4State.ballSlowTimer ≤ 0 ∧ c4State.ballFastTimer ≤ 0 ∧
    c4State.ball.x + c4State.ball.vx < -20 ∧ c4State.ball.radius = 8 ∧
    c4State.player.x = 30 ∧ c4State.ai.x = 756 ∧
    ((update env0 c4State).ai.score = c4State.ai.score + 1 ∧
    (c4State.winScore ≤ c4State.ai.score + 1 →
      (update env0 c4State).gameStatus = Status.gameOver ∧
      (update env0 c4State).winner =
        (if c4State.mode = GameMode.multi then "P2" else "AI")) ∧
    (c4State.ai.score + 1 < c4State.winScore →
      (update env0 c4State).ball.x = CANVAS_WIDTH / 2 ∧
      (update env0 c4State).ball.y = CANVAS_HEIGHT / 2 ∧
      (update env0 c4State).ball.vx = 0 ∧ (update env0 c4State).ball.vy = 0 ∧
      (update env0 c4State).serveCountdown = 3)) :=
  ⟨rfl, by norm_num [c4State, demoState], by norm_num [c4State, demoState],
   by norm_num [c4State, demoState], by norm_num [c4State, demoState],
   by norm_num [c4State, demoState], by norm_num [c4State, demoState],
   by norm_num [c4State, demoState],
   C4_left_edge_scoring env0 c4State rfl (by norm_num [c4State, demoState])
     (by norm_num [c4State, demoState]) (by norm_num [c4State, demoState])
     (by norm_num [c4State, demoState]) (by norm_num [c4State, demoState])
     (by norm_num [c4State, demoState]) (by norm_num [c4State, demoState])⟩

/-! ## Preservation of the engine invariant -/

lemma serveDir_toReal_cases (d : ServeDir) : d.toReal = 1 ∨ d.toReal = -1 := by
  cases d <;> simp [ServeDir.toReal]

lemma inv_aiSpeedPhase {s : GameState} (h : EngineInv s) : EngineInv (aiSpeedPhase s) := by
  obtain ⟨v, e⟩ := aiSpeedPhase_spec s
  rw [e]
  exact ⟨h.radius, h.speed_pos, h.slow_pos, h.fast_pos, h.player_h, h.ai_h,
    h.vx_or_serve, h.y_lo, h.y_hi, h.player_excl, h.ai_excl⟩

lemma inv_movePhase (env : Env) {s : GameState} (h : EngineInv s) :
    EngineInv (movePhase env s) := by
  obtain ⟨pl, ai, e, _, _, hh, _, _, _, _, hah, _, _⟩ := movePhase_spec env s
  rw [e]
  exact ⟨h.radius, h.speed_pos, h.slow_pos, h.fast_pos, hh ▸ h.player_h,
    hah ▸ h.ai_h, h.vx_or_serve, h.y_lo, h.y_hi, h.player_excl, h.ai_excl⟩

lemma inv_dyPhase {s : GameState} (h : EngineInv s) : EngineInv (dyPhase s) :=
  ⟨h.radius, h.speed_pos, h.slow_pos, h.fast_pos, h.player_h, h.ai_h,
    h.vx_or_serve, h.y_lo, h.y_hi, h.player_excl, h.ai_excl⟩

lemma inv_powerHitPhase {s : GameState} (h : EngineInv s) : EngineInv (powerHitPhase s) := by
  obtain ⟨b, t, e⟩ := powerHitPhase_spec s
  rw [e]
  exact ⟨h.radius, h.speed_pos, h.slow_pos, h.fast_pos, h.player_h, h.ai_h,
    h.vx_or_serve, h.y_lo, h.y_hi, h.player_excl, h.ai_excl⟩

lemma inv_spawnPhase (env : Env) {s : GameState} (h : EngineInv s) :
    EngineInv (spawnPhase env s) := by
  obtain ⟨l, t, e⟩ := spawnPhase_spec env s
  rw [e]
  exact ⟨h.radius, h.speed_pos, h.slow_pos, h.fast_pos, h.player_h, h.ai_h,
    h.vx_or_serve, h.y_lo, h.y_hi, h.player_excl, h.ai_excl⟩

lemma inv_ttlPhase {s : GameState} (h : EngineInv s) : EngineInv (ttlPhase s) := by
  obtain ⟨l, e⟩ := ttlPhase_spec s
  rw [e]
  exact ⟨h.radius, h.speed_pos, h.slow_pos, h.fast_pos, h.player_h, h.ai_h,
    h.vx_or_serve, h.y_lo, h.y_hi, h.player_excl, h.ai_excl⟩

lemma inv_playerEnlargeBlock {s : GameState} (h : EngineInv s) :
    EngineInv (playerEnlargeBlock s) := by
  obtain ⟨ht, tm, e, hh, htm⟩ := playerEnlargeBlock_spec s
  rw [e]
  refine ⟨h.radius, h.speed_pos, h.slow_pos, h.fast_pos, ?_, h.ai_h,
    h.vx_or_serve, h.y_lo, h.y_hi, ?_, h.ai_excl⟩
  · rcases hh with h1 | h1 <;> rw [h1]
    · exact h.player_h
    · norm_num [PADDLE_HEIGHT]
  · rcases htm with hpos | ⟨-, ht2⟩
    · rcases h.player_excl with hz | hz
      · exact (hpos.ne' hz).elim
      · exact Or.inr hz
    · rw [ht2]
      exact h.player_excl

lemma inv_aiEnlargeBlock {s : GameState} (h : EngineInv s) :
    EngineInv (aiEnlargeBlock s) := by
  obtain ⟨ht, tm, e, hh, htm⟩ := aiEnlargeBlock_spec s
  rw [e]
  refine ⟨h.radius, h.speed_pos, h.slow_pos, h.fast_pos, h.player_h, ?_,
    h.vx_or_serve, h.y_lo, h.y_hi, h.player_excl, ?_⟩
  · rcases hh with h1 | h1 <;> rw [h1]
    · exact h.ai_h
    · norm_num [PADDLE_HEIGHT]
  · rcases htm with hpos | ⟨-, ht2⟩
    · rcases h.ai_excl with hz | hz
      · exact (hpos.ne' hz).elim
      · exact Or.inr hz
    · rw [ht2]
      exact h.ai_excl

lemma inv_playerShrinkBlock {s : GameState} (h : EngineInv s) :
    EngineInv (playerShrinkBlock s) := by
  obtain ⟨ht, tm, e, hh, htm⟩ := playerShrinkBlock_spec s
  rw [e]
  refine ⟨h.radius, h.speed_pos, h.slow_pos, h.fast_pos, ?_, h.ai_h,
    h.vx_or_serve, h.y_lo, h.y_hi, ?_, h.ai_excl⟩
  · rcases hh with h1 | h1 <;> rw [h1]
    · exact h.player_h
    · norm_num [PADDLE_HEIGHT]
  · rcases htm with hpos | ⟨-, ht2⟩
    · rcases h.player_excl with hz | hz
      · exact Or.inl hz
      · exact (hpos.ne' hz).elim
    · rw [ht2]
      exact h.player_excl

lemma inv_aiShrinkBlock {s : GameState} (h : EngineInv s) :
    EngineInv (aiShrinkBlock s) := by
  obtain ⟨ht, tm, e, hh, htm⟩ := aiShrinkBlock_spec s
  rw [e]
  refine ⟨h.radius, h.speed_pos, h.slow_pos, h.fast_pos, h.player_h, ?_,
    h.vx_or_serve, h.y_lo, h.y_hi, h.player_excl, ?_⟩
  · rcases hh with h1 | h1 <;> rw [h1]
    · exact h.ai_h
    · norm_num [PADDLE_HEIGHT]
  · rcases htm with hpos | ⟨-, ht2⟩
    · rcases h.ai_excl with hz | hz
      · exact Or.inl hz
      · exact (hpos.ne' hz).elim
    · rw [ht2]
      exact h.ai_excl

lemma inv_slowTimerPhase {s : GameState} (h : EngineInv s) :
    EngineInv (slowTimerPhase s) := by
  obtain ⟨vx, vy, f, t, e, hvv⟩ := slowTimerPhase_spec s
  rw [e]
  refine ⟨h.radius, h.speed_pos, ?_, h.fast_pos, h.player_h, h.ai_h, ?_,
    h.y_lo, h.y_hi, h.player_excl, h.ai_excl⟩
  · rcases hvv with ⟨-, -, hf⟩ | ⟨-, -, hf⟩ <;> rw [hf]
    · exact h.slow_pos
    · norm_num
  · rcases h.vx_or_serve with hc | hvx
    · exact Or.inl hc
    · rcases hvv with ⟨h1, -, -⟩ | ⟨h1, -, -⟩ <;> rw [h1]
      · exact Or.inr hvx
      · exact Or.inr (div_ne_zero hvx h.slow_pos.ne')

lemma inv_fastTimerPhase {s : GameState} (h : EngineInv s) :
    EngineInv (fastTimerPhase s) := by
  obtain ⟨vx, vy, f, t, e, hvv⟩ := fastTimerPhase_spec s
  rw [e]
  refine ⟨h.radius, h.speed_pos, h.slow_pos, ?_, h.player_h, h.ai_h, ?_,
    h.y_lo, h.y_hi, h.player_excl, h.ai_excl⟩
  · rcases hvv with ⟨-, -, hf⟩ | ⟨-, -, hf⟩ <;> rw [hf]
    · exact h.fast_pos
    · norm_num
  · rcases h.vx_or_serve with hc | hvx
    · exact Or.inl hc
    · rcases hvv with ⟨h1, -, -⟩ | ⟨h1, -, -⟩ <;> rw [h1]
      · exact Or.inr hvx
      · exact Or.inr (div_ne_zero hvx h.fast_pos.ne')

lemma inv_prePhases (env : Env) {s : GameState} (h : EngineInv s) :
    EngineInv (prePhases env s) :=
  inv_fastTimerPhase (inv_slowTimerPhase (inv_aiShrinkBlock (inv_playerShrinkBlock
    (inv_aiEnlargeBlock (inv_playerEnlargeBlock (inv_ttlPhase (inv_spawnPhase env
      (inv_powerHitPhase (inv_dyPhase (inv_movePhase env (inv_aiSpeedPhase h)))))))))))

lemma inv_resetBall (env : Env) (dir : ℝ) (s : GameState)
    (hd : dir = 1 ∨ dir = -1)
    (hph : 54 ≤ s.player.height) (hah : 54 ≤ s.ai.height)
    (hsf : 0 < s.ballSlowFactor) (hff : 0 < s.ballFastFactor)
    (hpe : s.playerPowerUpTimer = 0 ∨ s.playerShrinkTimer = 0)
    (hae : s.aiPowerUpTimer = 0 ∨ s.aiShrinkTimer = 0) :
    EngineInv (resetBall env dir s) := by
  have hm := ballSpeedMul_pos s.difficulty
  have hsp : 0 < BALL_INITIAL_SPEED * (DIFFICULTY_SETTINGS s.difficulty).ballSpeedMul :=
    mul_pos (by norm_num [BALL_INITIAL_SPEED]) hm
  unfold resetBall
  dsimp only
  refine ⟨rfl, hsp, hsf, hff, hph, hah, Or.inr ?_, ?_, ?_, hpe, hae⟩
  · refine mul_ne_zero hsp.ne' ?_
    rcases hd with h1 | h1 <;> rw [h1] <;> norm_num
  · norm_num [CANVAS_HEIGHT]
  · norm_num [CANVAS_HEIGHT]

lemma inv_servePhase (env : Env) {s : GameState} (h : EngineInv s) :
    EngineInv (servePhase env s) := by
  unfold servePhase
  dsimp only
  split_ifs with h1 h2 h2 <;>
    first
      | exact inv_resetBall env _ _ (serveDir_toReal_cases _) h.player_h h.ai_h
          h.slow_pos h.fast_pos h.player_excl h.ai_excl
      | exact ⟨h.radius, h.speed_pos, h.slow_pos, h.fast_pos, h.player_h, h.ai_h,
          Or.inl (by linarith [not_le.mp h1]),
          h.y_lo, h.y_hi, h.player_excl, h.ai_excl⟩

lemma wallPhase_y_bounds (u : GameState) (hr : u.ball.radius = 8) :
    8 ≤ (wallPhase u).ball.y ∧ (wallPhase u).ball.y ≤ 492 := by
  unfold wallPhase
  dsimp only
  split_ifs with h1 h2 h2 <;> constructor <;>
    simp only [hr] at * <;> norm_num [CANVAS_HEIGHT] at * <;> linarith

lemma inv_wallMove {u : GameState} (h : EngineInv u) :
    EngineInv (wallPhase (ballMovePhase u)) := by
  have hyb := wallPhase_y_bounds (ballMovePhase u)
    (show (ballMovePhase u).ball.radius = 8 from h.radius)
  obtain ⟨y, vy, e⟩ := wallMove_spec u
  rw [e] at hyb
  rw [e]
  exact ⟨h.radius, h.speed_pos, h.slow_pos, h.fast_pos, h.player_h, h.ai_h,
    h.vx_or_serve, hyb.1, hyb.2, h.player_excl, h.ai_excl⟩

lemma checkPaddleCollision_frame (now : ℝ) (s : GameState) (ip : Bool) :
    ∃ b iph pht r mr cb lht lhb, checkPaddleCollision now s ip =
      { s with ball := b, isPowerHit := iph, powerHitTimer := pht,
               rallyCount := r, maxRally := mr, combo := cb,
               lastHitTime := lht, lastHitBy := lhb } ∧
      b.y = s.ball.y ∧ b.radius = s.ball.radius := by
  unfold checkPaddleCollision
  dsimp only
  split_ifs <;> exact ⟨_, _, _, _, _, _, _, _, rfl, rfl, rfl⟩

lemma inv_checkPaddleCollision (now : ℝ) {s : GameState} (ip : Bool)
    (h : EngineInv s) : EngineInv (checkPaddleCollision now s ip) := by
  have hm := ballSpeedMul_pos s.difficulty
  by_cases hcol : ballHitsPaddle s.ball (if ip then s.player else s.ai)
  · obtain ⟨b, iph, pht, r, mr, cb, lht, lhb, e, hby, hbrr⟩ :=
      checkPaddleCollision_frame now s ip
    have hspd := checkPaddleCollision_speed now s ip hcol
    have hvel := (checkPaddleCollision_vel now s ip hcol).1
    have hp54 : 54 ≤ (if ip then s.player else s.ai).height := by
      cases ip
      · exact h.ai_h
      · exact h.player_h
    obtain ⟨-, -, hy1, hy2⟩ := hcol
    rw [h.radius] at hy1 hy2
    have hq : 0 < (if ip then s.player else s.ai).height / 2 := by linarith
    have hsp1 : 0 < min (s.ball.speed * 1.05)
        (14 * (DIFFICULTY_SETTINGS s.difficulty).ballSpeedMul) :=
      lt_min (by nlinarith [h.speed_pos]) (by nlinarith)
    have hhi : (s.ball.y - ((if ip then s.player else s.ai).y +
        (if ip then s.player else s.ai).height / 2)) /
        ((if ip then s.player else s.ai).height / 2) < 3 / 2 := by
      rw [div_lt_iff hq]
      nlinarith
    have hlo : -(3 / 2) < (s.ball.y - ((if ip then s.player else s.ai).y +
        (if ip then s.player else s.ai).height / 2)) /
        ((if ip then s.player else s.ai).height / 2) := by
      rw [lt_div_iff hq]
      nlinarith
    have hpi := Real.pi_pos
    have hcos : 0 < Real.cos ((s.ball.y - ((if ip then s.player else s.ai).y +
        (if ip then s.player else s.ai).height / 2)) /
        ((if ip then s.player else s.ai).height / 2) * (Real.pi / 3)) := by
      refine Real.cos_pos_of_mem_Ioo ⟨?_, ?_⟩
      · nlinarith
      · nlinarith
    refine ⟨?_, ?_, ?_, ?_, ?_, ?_, Or.inr ?_, ?_, ?_, ?_, ?_⟩
    · rw [e]
      show b.radius = 8
      rw [hbrr]
      exact h.radius
    · rw [hspd]
      split_ifs <;>
        first
          | exact lt_min (by nlinarith [hsp1]) (by nlinarith)
          | exact hsp1
    · rw [e]
      exact h.slow_pos
    · rw [e]
      exact h.fast_pos
    · rw [e]
      exact h.player_h
    · rw [e]
      exact h.ai_h
    · rw [hvel]
      have hside : (if ip then (1 : ℝ) else -1) ≠ 0 := by cases ip <;> norm_num
      exact mul_ne_zero (mul_ne_zero (mul_ne_zero hcos.ne' hsp1.ne') hside)
        (mul_pos h.slow_pos h.fast_pos).ne'
    · rw [e]
      show (8 : ℝ) ≤ b.y
      rw [hby]
      exact h.y_lo
    · rw [e]
      show b.y ≤ 492
      rw [hby]
      exact h.y_hi
    · rw [e]
      exact h.player_excl
    · rw [e]
      exact h.ai_excl
  · rw [checkPaddleCollision_not now s ip hcol]
    exact h

lemma inv_collisionDispatch (now : ℝ) {s : GameState} (h : EngineInv s) :
    EngineInv (collisionDispatch now s) := by
  unfold collisionDispatch
  split_ifs <;> exact inv_checkPaddleCollision now _ h

lemma inv_prepareServe (d : ServeDir) (s : GameState) : EngineInv (prepareServe d s) := by
  have hm := ballSpeedMul_pos s.difficulty
  unfold prepareServe
  dsimp only
  refine ⟨rfl, mul_pos (by norm_num [BALL_INITIAL_SPEED]) hm, by norm_num, by norm_num,
    ?_, ?_, Or.inl (by norm_num), ?_, ?_, Or.inl rfl, Or.inl rfl⟩ <;>
    norm_num [PADDLE_HEIGHT, CANVAS_HEIGHT]

lemma inv_leftEdgeScore (env : Env) {s : GameState} (h : EngineInv s) :
    EngineInv (leftEdgeScore env s) := by
  unfold leftEdgeScore
  dsimp only
  split_ifs <;>
    first
      | exact inv_prepareServe _ _
      | exact ⟨h.radius, h.speed_pos, h.slow_pos, h.fast_pos, h.player_h, h.ai_h,
          h.vx_or_serve, h.y_lo, h.y_hi, h.player_excl, h.ai_excl⟩

lemma inv_rightEdgeScore (env : Env) {s : GameState} (h : EngineInv s) :
    EngineInv (rightEdgeScore env s) := by
  unfold rightEdgeScore
  dsimp only
  split_ifs <;>
    first
      | exact inv_prepareServe _ _
      | exact ⟨h.radius, h.speed_pos, h.slow_pos, h.fast_pos, h.player_h, h.ai_h,
          h.vx_or_serve, h.y_lo, h.y_hi, h.player_excl, h.ai_excl⟩

lemma inv_scoringPhase (env : Env) {s : GameState} (h : EngineInv s) :
    EngineInv (scoringPhase env s) :=
  inv_rightEdgeScore env (inv_leftEdgeScore env h)

lemma inv_applyPowerUp {t : GameState} (pu : PowerUp) (h : EngineInv t) :
    EngineInv (applyPowerUp t pu) := by
  obtain ⟨pl, ai, b, ppt, apt, pst, ast, sf, st', ff, ft, pcp, pca, e, hx, hy, hsc,
    hsp, hw, hdy, hax, hay, hasc, hasp, haw, hady, hbx, hby, hbs, hbr, hplh, haih,
    hv, hsf, hff, hpex, haex⟩ := applyPowerUp_spec t pu
  rw [e]
  refine ⟨?_, ?_, ?_, ?_, ?_, ?_, ?_, ?_, ?_, ?_, ?_⟩
  · rw [hbr]; exact h.radius
  · rw [hbs]; exact h.speed_pos
  · rcases hsf with h1 | h1
    · exact h1
    · rw [h1]; exact h.slow_pos
  · rcases hff with h1 | h1
    · exact h1
    · rw [h1]; exact h.fast_pos
  · rcases hplh with h1 | h1 | h1 <;> rw [h1]
    · exact h.player_h
    · norm_num [PADDLE_HEIGHT, CANVAS_HEIGHT]
    · norm_num [PADDLE_HEIGHT]
  · rcases haih with h1 | h1 | h1 <;> rw [h1]
    · exact h.ai_h
    · norm_num [PADDLE_HEIGHT, CANVAS_HEIGHT]
    · norm_num [PADDLE_HEIGHT]
  · rcases h.vx_or_serve with hc | hvx
    · exact Or.inl hc
    · rcases hv with ⟨h1, -⟩ | ⟨h1, -⟩ | ⟨h1, -⟩ <;> rw [h1]
      · exact Or.inr hvx
      · exact Or.inr (mul_ne_zero hvx (by norm_num))
      · exact Or.inr (mul_ne_zero hvx (by norm_num))
  · rw [hby]; exact h.y_lo
  · rw [hby]; exact h.y_hi
  · rcases hpex with h1 | h1
    · exact h1
    · rw [h1.1, h1.2]; exact h.player_excl
  · rcases haex with h1 | h1
    · exact h1
    · rw [h1.1, h1.2]; exact h.ai_excl

lemma inv_pickupPhase {s : GameState} (h : EngineInv s) : EngineInv (pickupPhase s) := by
  refine pickupPhase_pred EngineInv ?_ ?_ h
  · intro t pu ht
    exact inv_applyPowerUp pu ht
  · intro t l ht
    exact ⟨ht.radius, ht.speed_pos, ht.slow_pos, ht.fast_pos, ht.player_h, ht.ai_h,
      ht.vx_or_serve, ht.y_lo, ht.y_hi, ht.player_excl, ht.ai_excl⟩

lemma inv_update (env : Env) {s : GameState} (h : EngineInv s) :
    EngineInv (update env s) := by
  by_cases h1 : s.gameStatus = Status.playing
  · by_cases h2 : 0 < (prePhases env s).serveCountdown
    · rw [update_serve_branch env h1 h2]
      exact inv_servePhase env (inv_prePhases env h)
    · rw [update_rally_branch env h1 h2]
      exact inv_pickupPhase (inv_scoringPhase env (inv_collisionDispatch env.now
        (inv_wallMove (inv_prePhases env h))))
  · rw [update_not_playing env h1]
    exact h

lemma inv_startGame (diff : Difficulty) (winAt : ℕ) (gameMode : GameMode)
    (adaptive powerUpsEn : Bool) (rate : SpawnRate) (env : Env) :
    EngineInv (startGame diff winAt gameMode adaptive powerUpsEn rate env) := by
  unfold startGame
  exact inv_prepareServe _ _

lemma inv_togglePause {s : GameState} (h : EngineInv s) : EngineInv (togglePause s) := by
  unfold togglePause
  split_ifs <;>
    exact ⟨h.radius, h.speed_pos, h.slow_pos, h.fast_pos, h.player_h, h.ai_h,
      h.vx_or_serve, h.y_lo, h.y_hi, h.player_excl, h.ai_excl⟩

lemma inv_returnToMenu {s : GameState} (h : EngineInv s) : EngineInv (returnToMenu s) :=
  ⟨h.radius, h.speed_pos, h.slow_pos, h.fast_pos, h.player_h, h.ai_h,
    h.vx_or_serve, h.y_lo, h.y_hi, h.player_excl, h.ai_excl⟩

/-- Every reachable state satisfies the engine invariant. -/
lemma reachable_inv {s : GameState} (hr : Reachable s) : EngineInv s := by
  induction hr with
  | start diff winAt gameMode adaptive powerUpsEn rate env =>
    exact inv_startGame diff winAt gameMode adaptive powerUpsEn rate env
  | step env hs ih => exact inv_update env ih
  | pause hs ih => exact inv_togglePause ih
  | menu hs ih => exact inv_returnToMenu ih

/-! ## Claim C5 -/

/-- C5: in every state reachable through `startGame`, `update` ticks (which
include power-up pickups), `togglePause` and `returnToMenu`, a paddle's
enlarge timer and shrink timer are never simultaneously non-zero. -/
theorem C5_enlarge_shrink_exclusion (s : GameState) (hr : Reachable s) :
    ¬(s.playerPowerUpTimer ≠ 0 ∧ s.playerShrinkTimer ≠ 0) ∧
    ¬(s.aiPowerUpTimer ≠ 0 ∧ s.aiShrinkTimer ≠ 0) := by
  have h := reachable_inv hr
  constructor
  · rintro ⟨h1, h2⟩
    rcases h.player_excl with hz | hz
    exacts [h1 hz, h2 hz]
  · rintro ⟨h1, h2⟩
    rcases h.ai_excl with hz | hz
    exacts [h1 hz, h2 hz]

/-- Closed instance of C5 at a freshly started match. -/
theorem C5_enlarge_shrink_exclusion_witness :
    ¬((startGame Difficulty.medium 7 GameMode.single false true SpawnRate.normal
        env0).playerPowerUpTimer ≠ 0 ∧
      (startGame Difficulty.medium 7 GameMode.single false true SpawnRate.normal
        env0).playerShrinkTimer ≠ 0) ∧
    ¬((startGame Difficulty.medium 7 GameMode.single false true SpawnRate.normal
        env0).aiPowerUpTimer ≠ 0 ∧
      (startGame Difficulty.medium 7 GameMode.single false true SpawnRate.normal
        env0).aiShrinkTimer ≠ 0) :=
  C5_enlarge_shrink_exclusion _
    (Reachable.start Difficulty.medium 7 GameMode.single false true SpawnRate.normal env0)

/-! ## Claim C10 -/

/-- C10: in every reachable state the ball's y coordinate lies within
`[radius, CANVAS_HEIGHT − radius]`: wall resolution clamps y back inside the
court within the tick and serve/reset operations recenter the ball. -/
theorem C10_ball_y_within_walls (s : GameState) (hr : Reachable s) :
    s.ball.radius ≤ s.ball.y ∧ s.ball.y ≤ CANVAS_HEIGHT - s.ball.radius := by
  have h := reachable_inv hr
  refine ⟨?_, ?_⟩
  · rw [h.radius]
    exact h.y_lo
  · rw [h.radius, CANVAS_HEIGHT]
    have := h.y_hi
    linarith

/-- Closed instance of C10 at a freshly started match. -/
theorem C10_ball_y_within_walls_witness :
    (startGame Difficulty.easy 5 GameMode.multi false true SpawnRate.low
        env0).ball.radius ≤
      (startGame Difficulty.easy 5 GameMode.multi false true SpawnRate.low
        env0).ball.y ∧
    (startGame Difficulty.easy 5 GameMode.multi false true SpawnRate.low
        env0).ball.y ≤ CANVAS_HEIGHT -
      (startGame Difficulty.easy 5 GameMode.multi false true SpawnRate.low
        env0).ball.radius :=
  C10_ball_y_within_walls _
    (Reachable.start Difficulty.easy 5 GameMode.multi false true SpawnRate.low env0)

/-! ## Claim C9 -/

lemma checkPaddleCollision_player (now : ℝ) (t : GameState) (ip : Bool) :
    (checkPaddleCollision now t ip).player = t.player := by
  unfold checkPaddleCollision
  dsimp only
  split_ifs <;> rfl

/-- C9: every reachable state satisfies the engine invariant, and for any
invariant-satisfying playing state with no pending serve countdown the ball
still has nonzero horizontal velocity when the dispatch point is reached;
the dispatch tests exactly the left paddle when `vx < 0` and exactly the
right paddle when `vx > 0`, and the handler never touches the other
paddle. -/
theorem C9_collision_dispatch_exclusive :
    (∀ s : GameState, Reachable s → EngineInv s) ∧
    (∀ (env : Env) (s : GameState), EngineInv s → s.gameStatus = Status.playing →
      s.serveCountdown ≤ 0 →
      (wallPhase (ballMovePhase (prePhases env s))).ball.vx ≠ 0) ∧
    (∀ (now : ℝ) (t : GameState), t.ball.vx < 0 →
      collisionDispatch now t = checkPaddleCollision now t true) ∧
    (∀ (now : ℝ) (t : GameState), 0 < t.ball.vx →
      collisionDispatch now t = checkPaddleCollision now t false) ∧
    (∀ (now : ℝ) (t : GameState), (checkPaddleCollision now t true).ai = t.ai) ∧
    (∀ (now : ℝ) (t : GameState),
      (checkPaddleCollision now t false).player = t.player) := by
  refine ⟨fun s hr => reachable_inv hr, ?_, ?_, ?_, ?_, ?_⟩
  · intro env s hinv h1 h2
    have hvx : (prePhases env s).ball.vx ≠ 0 := by
      rcases (inv_prePhases env hinv).vx_or_serve with hc | hvx
      · rw [prePhases_serveCountdown env s] at hc
        linarith
      · exact hvx
    obtain ⟨y, vy, e⟩ := wallMove_spec (prePhases env s)
    rw [e]
    exact hvx
  · intro now t h
    unfold collisionDispatch
    rw [if_pos h]
  · intro now t h
    unfold collisionDispatch
    rw [if_neg (asymm h)]
  · intro now t
    exact checkPaddleCollision_ai now t true
  · intro now t
    exact checkPaddleCollision_player now t false

/-- Closed instance of C9: the invariant at a fresh match, a nonzero
dispatch-point velocity at a concrete rally state, and both dispatch
directions at concrete states. -/
theorem C9_collision_dispatch_exclusive_witness :
    (Reachable (startGame Difficulty.hard 7 GameMode.single true true
        SpawnRate.high env0) ∧
      EngineInv (startGame Difficulty.hard 7 GameMode.single true true
        SpawnRate.high env0)) ∧
    (EngineInv demoState ∧ demoState.gameStatus = Status.playing ∧
      demoState.serveCountdown ≤ 0 ∧
      (wallPhase (ballMovePhase (prePhases env0 demoState))).ball.vx ≠ 0) ∧
    (c1State.ball.vx < 0 ∧
      collisionDispatch 0 c1State = checkPaddleCollision 0 c1State true) ∧
    (0 < demoState.ball.vx ∧
      collisionDispatch 0 demoState = checkPaddleCollision 0 demoState false) ∧
    (checkPaddleCollision 0 demoState true).ai = demoState.ai ∧
    (checkPaddleCollision 0 demoState false).player = demoState.player := by
  have h := C9_collision_dispatch_exclusive
  have hstart := Reachable.start Difficulty.hard 7 GameMode.single true true
    SpawnRate.high env0
  have hinvDemo : EngineInv demoState := by
    refine ⟨?_, ?_, ?_, ?_, ?_, ?_, Or.inr ?_, ?_, ?_, Or.inl ?_, Or.inl ?_⟩ <;>
      norm_num [demoState]
  refine ⟨⟨hstart, h.1 _ hstart⟩,
    ⟨hinvDemo, rfl, by norm_num [demoState],
      h.2.1 env0 demoState hinvDemo rfl (by norm_num [demoState])⟩,
    ⟨by norm_num [c1State, demoState], h.2.2.1 0 c1State (by norm_num [c1State, demoState])⟩,
    ⟨by norm_num [demoState], h.2.2.2.1 0 demoState (by norm_num [demoState])⟩,
    h.2.2.2.2.1 0 demoState, h.2.2.2.2.2 0 demoState⟩
